import Mathlib

/-!
Verification of the poster-resolution core of the franime stremio addon.

The definitions below are a shallow embedding of the JavaScript sources:
  - poster-system/services/CacheService.js   (TTL + LRU cache)
  - poster-system/services/MetricsCollector.js (global metrics)
  - poster-system/services/FallbackChain.js  (priority fallback walk)
  - poster-system/interfaces/PosterSource.js (per-source metrics wrapper)
  - poster-system/PosterManager.js           (orchestrator, dedup)
  - utils/kitsu.js and poster-system/sources/TMDBSource.js
      (circuit breaker and rate limiters)

Times are in milliseconds, modelled as natural numbers; wall-clock reads
(Date.now) are passed explicitly as a `now` argument.  JavaScript numbers
that can be fractional (averages, rate-limit intervals) are modelled as
rationals.  Fallible operations are modelled with `Except` oracles.
-/

namespace FrAnime

/-- Cache entry as stored by CacheService (CacheService.js): the manager
stores animeId, posterUrl, source, timestamp (creation instant), ttl and
a hit counter. -/
structure CacheEntry where
  animeId : String
  posterUrl : String
  source : String
  timestamp : Nat
  ttl : Nat
  hits : Nat
  deriving DecidableEq, Repr

/-- Counters kept in `this.stats` of CacheService. -/
structure CacheStats where
  hits : Nat
  misses : Nat
  sets : Nat
  evictions : Nat
  size : Nat
  deriving DecidableEq, Repr

/-- State of a CacheService instance.  The JavaScript Map keeps insertion
order, which doubles as LRU recency order; we model it as an association
list whose head is the oldest (least recently touched) binding. -/
structure CacheState where
  maxSize : Nat
  defaultTTL : Nat
  entries : List (String × CacheEntry)
  stats : CacheStats
  deriving DecidableEq, Repr

/-- Lookup in the ordered map. -/
def lookupEntry (l : List (String × CacheEntry)) (k : String) : Option CacheEntry :=
  (l.find? (fun p => p.1 == k)).map (fun p => p.2)

/-- Deletion from the ordered map (Map.delete). -/
def eraseKey (l : List (String × CacheEntry)) (k : String) : List (String × CacheEntry) :=
  l.filter (fun p => p.1 != k)

namespace CacheService

/-- CacheService._isExpired: `(entry.timestamp + entry.ttl) < now`. -/
def isExpired (e : CacheEntry) (now : Nat) : Bool :=
  e.timestamp + e.ttl < now

/-- CacheService.get: miss counts a miss; an expired entry is deleted and
counts a miss; a live hit increments the hit counters and moves the entry
to the most-recently-used end of the map. -/
def get (c : CacheState) (key : String) (now : Nat) :
    Option CacheEntry × CacheState :=
  match lookupEntry c.entries key with
  | none =>
      (none, { c with stats := { c.stats with misses := c.stats.misses + 1 } })
  | some entry =>
      if isExpired entry now then
        let entries' := eraseKey c.entries key
        (none, { c with
          entries := entries',
          stats := { c.stats with
            misses := c.stats.misses + 1, size := entries'.length } })
      else
        let updated : CacheEntry := { entry with hits := entry.hits + 1 }
        let entries' := eraseKey c.entries key ++ [(key, updated)]
        (some updated, { c with
          entries := entries',
          stats := { c.stats with hits := c.stats.hits + 1 } })

/-- CacheService.set: evicts the first (least recently used) binding when
the store is at capacity and the key is new, then re-inserts the key at the
most-recently-used end.  The `timestamp or Date.now()` and
`ttl or defaultTTL` defaults mirror the JavaScript falsiness of 0. -/
def set (c : CacheState) (key : String) (entry : CacheEntry) (now : Nat) :
    CacheState :=
  let step1 :=
    if c.maxSize ≤ c.entries.length ∧ lookupEntry c.entries key = none then
      match c.entries with
      | [] => c
      | _ :: rest =>
          { c with entries := rest,
                   stats := { c.stats with evictions := c.stats.evictions + 1 } }
    else c
  let entries1 := eraseKey step1.entries key
  let stored : CacheEntry :=
    { entry with
      timestamp := if entry.timestamp = 0 then now else entry.timestamp,
      ttl := if entry.ttl = 0 then c.defaultTTL else entry.ttl }
  let entries2 := entries1 ++ [(key, stored)]
  { step1 with
    entries := entries2,
    stats := { step1.stats with
      sets := step1.stats.sets + 1, size := entries2.length } }

/-- View returned by CacheService.getStats.  The `hitRate or 0` of the
source maps a NaN (0/0) to 0, which agrees with rational division by 0. -/
structure StatsView where
  hits : Nat
  misses : Nat
  sets : Nat
  evictions : Nat
  size : Nat
  hitRate : ℚ
  currentSize : Nat
  maxSize : Nat
  deriving DecidableEq, Repr

/-- CacheService.getStats. -/
def getStats (c : CacheState) : StatsView :=
  { hits := c.stats.hits, misses := c.stats.misses, sets := c.stats.sets,
    evictions := c.stats.evictions, size := c.stats.size,
    hitRate := (c.stats.hits : ℚ) / ((c.stats.hits : ℚ) + (c.stats.misses : ℚ)),
    currentSize := c.entries.length, maxSize := c.maxSize }

end CacheService

/-- Key absent after erasing it. -/
theorem lookupEntry_eraseKey (l : List (String × CacheEntry)) (k : String) :
    lookupEntry (eraseKey l k) k = none := by
  induction l with
  | nil => rfl
  | cons p t ih =>
      by_cases h : p.1 = k
      · set_option linter.unnecessarySimpa false in
        simpa [lookupEntry, eraseKey, h] using ih
      · set_option linter.unnecessarySimpa false in
        simpa [lookupEntry, eraseKey, h] using ih

/-- A key that is not bound is erased to the identity. -/
theorem eraseKey_eq_self_of_lookup_none (l : List (String × CacheEntry))
    (k : String) (h : lookupEntry l k = none) : eraseKey l k = l := by
  induction l with
  | nil => rfl
  | cons p t ih =>
      by_cases hp : p.1 = k
      · simp [lookupEntry, hp] at h
      · simp only [lookupEntry, List.find?] at h
        simp only [eraseKey, List.filter]
        have hb : (p.1 == k) = false := by simp [hp]
        simp only [hb] at h ⊢
        simp only [bne, hb, Bool.not_false, if_true]
        exact congrArg (p :: ·) (ih h)

/-- C4 counterexample: the claim asserts that an entry is already expired
at the exact instant `now = createdAt + ttl`, with Get returning absent and
counting a miss.  CacheService._isExpired uses the strict comparison
`timestamp + ttl < now`, so at `now = 100` an entry created at 0 with
ttl 100 is still returned as a hit (hits becomes 1, misses stays 0) and is
kept in the cache. -/
theorem C4_counterexample :
    let e : CacheEntry :=
      { animeId := "1", posterUrl := "u", source := "kitsu",
        timestamp := 0, ttl := 100, hits := 0 }
    let c : CacheState :=
      { maxSize := 10, defaultTTL := 1000, entries := [("k", e)],
        stats := { hits := 0, misses := 0, sets := 1, evictions := 0, size := 1 } }
    (CacheService.get c "k" 100).1.isSome = true ∧
      (CacheService.get c "k" 100).2.stats.hits = 1 ∧
      (CacheService.get c "k" 100).2.stats.misses = 0 ∧
      lookupEntry (CacheService.get c "k" 100).2.entries "k" ≠ none := by
  decide

/-- C4 (amended): an entry is expired exactly when `now > createdAt + ttl`
(strictly after the expiry instant; at `now = createdAt + ttl` the entry is
still served).  For every Get performed at such a time the entry is treated
as expired: Get returns absent, removes the entry, and counts a miss rather
than a hit. -/
theorem C4_get_expired (c : CacheState) (key : String) (now : Nat)
    (entry : CacheEntry) (hfound : lookupEntry c.entries key = some entry)
    (hexp : entry.timestamp + entry.ttl < now) :
    (CacheService.get c key now).1 = none ∧
      lookupEntry (CacheService.get c key now).2.entries key = none ∧
      (CacheService.get c key now).2.stats.misses = c.stats.misses + 1 ∧
      (CacheService.get c key now).2.stats.hits = c.stats.hits := by
  have hb : CacheService.isExpired entry now = true := by
    simp [CacheService.isExpired, hexp]
  refine ⟨?_, ?_, ?_, ?_⟩ <;>
    simp [CacheService.get, hfound, hb, lookupEntry_eraseKey]

/-- Concrete expired entry used to witness C4_get_expired. -/
def c4Entry : CacheEntry :=
  { animeId := "1", posterUrl := "u", source := "kitsu",
    timestamp := 0, ttl := 100, hits := 3 }

/-- Concrete cache state used to witness C4_get_expired. -/
def c4State : CacheState :=
  { maxSize := 10, defaultTTL := 1000, entries := [("k", c4Entry)],
    stats := { hits := 2, misses := 5, sets := 1, evictions := 0, size := 1 } }

/-- Witness for C4_get_expired at a concrete expired entry. -/
theorem C4_get_expired_witness :
    (CacheService.get c4State "k" 101).1 = none ∧
      lookupEntry (CacheService.get c4State "k" 101).2.entries "k" = none ∧
      (CacheService.get c4State "k" 101).2.stats.misses = 6 ∧
      (CacheService.get c4State "k" 101).2.stats.hits = 2 :=
  C4_get_expired c4State "k" 101 c4Entry (by decide) (by decide)

/-- The entry actually stored by CacheService.set, with the
`timestamp or Date.now()` and `ttl or defaultTTL` defaults applied. -/
def storedEntry (c : CacheState) (e : CacheEntry) (now : Nat) : CacheEntry :=
  { e with
    timestamp := if e.timestamp = 0 then now else e.timestamp,
    ttl := if e.ttl = 0 then c.defaultTTL else e.ttl }

/-- A cache operation of the public Get/Set API. -/
inductive CacheOp
  | get (key : String) (now : Nat)
  | set (key : String) (entry : CacheEntry) (now : Nat)
  deriving DecidableEq, Repr

/-- The state transition of one cache operation. -/
def cacheStep (c : CacheState) : CacheOp → CacheState
  | .get k now => (CacheService.get c k now).2
  | .set k e now => CacheService.set c k e now

/-- The key whose recency an operation refreshes to most-recently-used:
a Get refreshes its key exactly on a live hit (the source moves the entry
to the end of the map); a Set always re-inserts its key at the end. -/
def touchedKey (c : CacheState) : CacheOp → Option String
  | .get k now =>
      match lookupEntry c.entries k with
      | none => none
      | some e => if CacheService.isExpired e now then none else some k
  | .set k _ _ => some k

/-- Pointwise update of the ghost last-touch record. -/
def touchUpd (lt : String → Nat) (k : String) (tk : Nat) : String → Nat :=
  fun x => if x = k then tk else lt x

/-- Instrumented cache state: alongside the CacheService state we keep a
ghost record of when each key was last touched (a logical timestamp that
increases with every operation).  This is specification-side bookkeeping
used to express what least-recently-touched means; it does not alter the
embedded code. -/
structure GhostCache where
  cache : CacheState
  lastTouch : String → Nat
  tick : Nat

def ghostStep (g : GhostCache) (op : CacheOp) : GhostCache :=
  match touchedKey g.cache op with
  | some k =>
      { cache := cacheStep g.cache op,
        lastTouch := touchUpd g.lastTouch k g.tick, tick := g.tick + 1 }
  | none =>
      { cache := cacheStep g.cache op,
        lastTouch := g.lastTouch, tick := g.tick + 1 }

def ghostRun (g : GhostCache) : List CacheOp → GhostCache
  | [] => g
  | op :: ops => ghostRun (ghostStep g op) ops

/-- A freshly constructed CacheService. -/
def initialCache (maxSize ttl : Nat) : CacheState :=
  { maxSize := maxSize, defaultTTL := ttl, entries := [],
    stats := { hits := 0, misses := 0, sets := 0, evictions := 0, size := 0 } }

def initialGhost (maxSize ttl : Nat) : GhostCache :=
  { cache := initialCache maxSize ttl, lastTouch := fun _ => 0, tick := 1 }

/-- LRU invariant: the map order lists keys in strictly increasing order of
last touch, and every present key was touched before the current tick. -/
def LruInv (g : GhostCache) : Prop :=
  List.Pairwise (fun a b => a < b)
      (g.cache.entries.map fun p => g.lastTouch p.1) ∧
    ∀ p ∈ g.cache.entries, g.lastTouch p.1 < g.tick

theorem mem_eraseKey {l : List (String × CacheEntry)} {k : String}
    {p : String × CacheEntry} (h : p ∈ eraseKey l k) : p ∈ l ∧ p.1 ≠ k := by
  have h' := List.mem_filter.mp h
  refine ⟨h'.1, ?_⟩
  simpa using h'.2

theorem eraseKey_sublist (l : List (String × CacheEntry)) (k : String) :
    List.Sublist (eraseKey l k) l :=
  List.filter_sublist l

/-- Shape of Get on a missing key: the map is unchanged. -/
theorem get_entries_none (c : CacheState) (k : String) (now : Nat)
    (h : lookupEntry c.entries k = none) :
    (CacheService.get c k now).2.entries = c.entries := by
  simp [CacheService.get, h]

/-- Shape of Get on an expired entry: the binding is removed. -/
theorem get_entries_expired (c : CacheState) (k : String) (now : Nat)
    (e : CacheEntry) (h : lookupEntry c.entries k = some e)
    (hx : CacheService.isExpired e now = true) :
    (CacheService.get c k now).2.entries = eraseKey c.entries k := by
  simp [CacheService.get, h, hx]

/-- Shape of Get on a live hit: the binding moves to the MRU end. -/
theorem get_entries_live (c : CacheState) (k : String) (now : Nat)
    (e : CacheEntry) (h : lookupEntry c.entries k = some e)
    (hx : CacheService.isExpired e now = false) :
    (CacheService.get c k now).2.entries =
      eraseKey c.entries k ++ [(k, { e with hits := e.hits + 1 })] := by
  simp [CacheService.get, h, hx]

/-- Shape of Set when the store is full and the key new: the oldest binding
is evicted, then the key is appended at the MRU end. -/
theorem set_entries_evict (c : CacheState) (k : String) (e : CacheEntry)
    (now : Nat) (hd : String × CacheEntry) (tl : List (String × CacheEntry))
    (hfull : c.maxSize ≤ c.entries.length)
    (hnew : lookupEntry c.entries k = none)
    (hcons : c.entries = hd :: tl) :
    (CacheService.set c k e now).entries =
      eraseKey tl k ++ [(k, storedEntry c e now)] := by
  have h1 : c.maxSize ≤ tl.length + 1 := by
    simpa [hcons] using hfull
  have h2 : lookupEntry (hd :: tl) k = none := by
    rw [← hcons]; exact hnew
  simp [CacheService.set, storedEntry, hcons, h1, h2]

/-- Shape of Set otherwise: the key is (re)inserted at the MRU end without
eviction. -/
theorem set_entries_noevict (c : CacheState) (k : String) (e : CacheEntry)
    (now : Nat)
    (hcond : ¬(c.maxSize ≤ c.entries.length ∧ lookupEntry c.entries k = none)) :
    (CacheService.set c k e now).entries =
      eraseKey c.entries k ++ [(k, storedEntry c e now)] := by
  simp [CacheService.set, storedEntry, hcond]

/-- Erasing a key does not change the recorded touches of the survivors. -/
theorem map_touchUpd_eraseKey (lt : String → Nat) (tk : Nat)
    (l : List (String × CacheEntry)) (k : String) :
    ((eraseKey l k).map fun p => touchUpd lt k tk p.1) =
      (eraseKey l k).map fun p => lt p.1 := by
  apply List.map_congr_left
  intro p hpmem
  have hne := (mem_eraseKey hpmem).2
  simp [touchUpd, hne]

/-- Appending a key with a fresh maximal touch stamp preserves the sorted
order of touches and the tick bound. -/
theorem lruInv_insert (lt : String → Nat) (tk : Nat)
    (l : List (String × CacheEntry)) (k : String) (e : CacheEntry)
    (hp : List.Pairwise (fun a b => a < b) (l.map fun p => lt p.1))
    (hb : ∀ p ∈ l, lt p.1 < tk) :
    List.Pairwise (fun a b => a < b)
        ((eraseKey l k ++ [(k, e)]).map fun p => touchUpd lt k tk p.1) ∧
      ∀ p ∈ eraseKey l k ++ [(k, e)], touchUpd lt k tk p.1 < tk + 1 := by
  constructor
  · rw [List.map_append, List.pairwise_append]
    refine ⟨?_, by simp, ?_⟩
    · rw [map_touchUpd_eraseKey]
      exact hp.sublist ((eraseKey_sublist l k).map _)
    · intro a ha b hbmem
      simp only [List.map_cons, List.map_nil, List.mem_singleton] at hbmem
      have hbk : b = tk := by simp [hbmem, touchUpd]
      rw [List.mem_map] at ha
      obtain ⟨p, hpmem, rfl⟩ := ha
      have hne := (mem_eraseKey hpmem).2
      have hlt : lt p.1 < tk := hb p (mem_eraseKey hpmem).1
      simpa [touchUpd, hne, hbk] using hlt
  · intro p hpmem
    rcases List.mem_append.mp hpmem with hleft | hright
    · have hne := (mem_eraseKey hleft).2
      have hlt : lt p.1 < tk := hb p (mem_eraseKey hleft).1
      simp [touchUpd, hne]
      omega
    · simp only [List.mem_singleton] at hright
      simp [hright, touchUpd]

/-- One cache operation preserves the LRU invariant. -/
theorem lruInv_ghostStep (g : GhostCache) (op : CacheOp) (h : LruInv g) :
    LruInv (ghostStep g op) := by
  obtain ⟨hp, hb⟩ := h
  cases op with
  | get k now =>
      cases hlook : lookupEntry g.cache.entries k with
      | none =>
          constructor
          · simpa [ghostStep, touchedKey, hlook, cacheStep,
              get_entries_none g.cache k now hlook] using hp
          · intro p hpmem
            simp only [ghostStep, touchedKey, hlook, cacheStep,
              get_entries_none g.cache k now hlook] at hpmem ⊢
            exact Nat.lt_succ_of_lt (hb p hpmem)
      | some e =>
          cases hx : CacheService.isExpired e now with
          | true =>
              have hstep : ghostStep g (.get k now) =
                  { cache := (CacheService.get g.cache k now).2,
                    lastTouch := g.lastTouch, tick := g.tick + 1 } := by
                simp [ghostStep, touchedKey, hlook, hx, cacheStep]
              rw [hstep]
              constructor
              · simp only [get_entries_expired g.cache k now e hlook hx]
                exact hp.sublist ((eraseKey_sublist _ k).map _)
              · intro p hpmem
                simp only [get_entries_expired g.cache k now e hlook hx]
                  at hpmem
                exact Nat.lt_succ_of_lt (hb p (mem_eraseKey hpmem).1)
          | false =>
              have hins := lruInv_insert g.lastTouch g.tick g.cache.entries k
                { e with hits := e.hits + 1 } hp hb
              have hstep : ghostStep g (.get k now) =
                  { cache := (CacheService.get g.cache k now).2,
                    lastTouch := touchUpd g.lastTouch k g.tick,
                    tick := g.tick + 1 } := by
                simp [ghostStep, touchedKey, hlook, hx, cacheStep]
              rw [hstep]
              constructor
              · simp only [get_entries_live g.cache k now e hlook hx]
                exact hins.1
              · intro p hpmem
                simp only [get_entries_live g.cache k now e hlook hx] at hpmem
                exact hins.2 p hpmem
  | set k e now =>
      by_cases hcond :
          g.cache.maxSize ≤ g.cache.entries.length ∧
            lookupEntry g.cache.entries k = none
      · cases hcons : g.cache.entries with
        | nil =>
            have hins := lruInv_insert g.lastTouch g.tick [] k
              (storedEntry g.cache e now) (by simp) (by simp)
            have hset : (CacheService.set g.cache k e now).entries =
                eraseKey [] k ++ [(k, storedEntry g.cache e now)] := by
              rcases hcond with ⟨h1, h2⟩
              simp [CacheService.set, storedEntry, hcons, h2]
            constructor
            · simpa [ghostStep, touchedKey, cacheStep, hset] using hins.1
            · intro p hpmem
              simp only [ghostStep, touchedKey, cacheStep, hset] at hpmem ⊢
              exact hins.2 p hpmem
        | cons hd tl =>
            have htail_p :
                List.Pairwise (fun a b => a < b)
                  (tl.map fun p => g.lastTouch p.1) := by
              have := hcons ▸ hp
              simpa using this.of_cons
            have htail_b : ∀ p ∈ tl, g.lastTouch p.1 < g.tick := by
              intro p hpmem
              exact hb p (by simp [hcons, hpmem])
            have hins := lruInv_insert g.lastTouch g.tick tl k
              (storedEntry g.cache e now) htail_p htail_b
            have hset := set_entries_evict g.cache k e now hd tl
              hcond.1 hcond.2 hcons
            constructor
            · simpa [ghostStep, touchedKey, cacheStep, hset] using hins.1
            · intro p hpmem
              simp only [ghostStep, touchedKey, cacheStep, hset] at hpmem ⊢
              exact hins.2 p hpmem
      · have hins := lruInv_insert g.lastTouch g.tick g.cache.entries k
          (storedEntry g.cache e now) hp hb
        have hset := set_entries_noevict g.cache k e now hcond
        constructor
        · simpa [ghostStep, touchedKey, cacheStep, hset] using hins.1
        · intro p hpmem
          simp only [ghostStep, touchedKey, cacheStep, hset] at hpmem ⊢
          exact hins.2 p hpmem

/-- The invariant holds along any run. -/
theorem lruInv_ghostRun (ops : List CacheOp) (g : GhostCache)
    (h : LruInv g) : LruInv (ghostRun g ops) := by
  induction ops generalizing g with
  | nil => exact h
  | cons op ops ih => exact ih _ (lruInv_ghostStep g op h)

/-- The invariant holds for a fresh cache. -/
theorem lruInv_initial (maxSize ttl : Nat) : LruInv (initialGhost maxSize ttl) := by
  constructor <;> simp [initialGhost, initialCache]

/-- Run of the instrumented cache from a freshly constructed service. -/
def lruRun (maxSize ttl : Nat) (ops : List CacheOp) : GhostCache :=
  ghostRun (initialGhost maxSize ttl) ops

theorem lookupEntry_cons_none {hd : String × CacheEntry}
    {tl : List (String × CacheEntry)} {k : String}
    (h : lookupEntry (hd :: tl) k = none) : lookupEntry tl k = none := by
  by_cases hk : hd.1 = k
  · simp [lookupEntry, List.find?_cons, hk] at h
  · simpa [lookupEntry, List.find?_cons, hk] using h

/-- C5: for every sequence of cache Get/Set operations starting from a
fresh cache, when Set is called with a new key while the cache holds
maxSize entries, the evicted entry is exactly the least-recently-touched
key — the head of the recency order, whose ghost last-touch stamp is
strictly smaller than that of every other resident key (`lastTouch`
records Get-hit and Set refreshes) — and every more-recently-touched key
survives the eviction, ending with the new key at the MRU end. -/
theorem C5_lru_eviction (ops : List CacheOp) (maxSize ttl : Nat)
    (key : String) (entry : CacheEntry) (now : Nat)
    (hfull : (lruRun maxSize ttl ops).cache.entries.length =
      (lruRun maxSize ttl ops).cache.maxSize)
    (hpos : 0 < (lruRun maxSize ttl ops).cache.maxSize)
    (hnew : lookupEntry (lruRun maxSize ttl ops).cache.entries key = none) :
    ∃ hd tl,
      (lruRun maxSize ttl ops).cache.entries = hd :: tl ∧
        (CacheService.set (lruRun maxSize ttl ops).cache key entry
              now).entries =
          tl ++ [(key, storedEntry (lruRun maxSize ttl ops).cache entry now)] ∧
        ∀ p ∈ tl,
          (lruRun maxSize ttl ops).lastTouch hd.1 <
            (lruRun maxSize ttl ops).lastTouch p.1 := by
  have hinv : LruInv (lruRun maxSize ttl ops) :=
    lruInv_ghostRun ops _ (lruInv_initial maxSize ttl)
  obtain ⟨hp, _⟩ := hinv
  have hne : (lruRun maxSize ttl ops).cache.entries ≠ [] := by
    intro hnil
    rw [hnil] at hfull
    simp at hfull
    omega
  obtain ⟨hd, tl, hcons⟩ := List.exists_cons_of_ne_nil hne
  refine ⟨hd, tl, hcons, ?_, ?_⟩
  · have htl_none : lookupEntry tl key = none :=
      lookupEntry_cons_none (hcons ▸ hnew)
    have hset := set_entries_evict (lruRun maxSize ttl ops).cache key entry
      now hd tl hfull.ge hnew hcons
    rw [hset, eraseKey_eq_self_of_lookup_none tl key htl_none]
  · intro p hpmem
    have hp' := hcons ▸ hp
    rw [List.map_cons, List.pairwise_cons] at hp'
    exact hp'.1 _ (List.mem_map.mpr ⟨p, hpmem, rfl⟩)

/-- Concrete poster entry used in the C5 witness trace. -/
def c5Entry (u : String) : CacheEntry :=
  { animeId := "1", posterUrl := u, source := "kitsu",
    timestamp := 1, ttl := 1000, hits := 0 }

/-- Concrete operation trace for the C5 witness: fill a 2-entry cache with
keys a then b, then touch a with a Get hit, making b the LRU key. -/
def c5Ops : List CacheOp :=
  [CacheOp.set "a" (c5Entry "ua") 0, CacheOp.set "b" (c5Entry "ub") 1,
   CacheOp.get "a" 2]

/-- Witness for C5_lru_eviction: inserting key c then evicts exactly b. -/
theorem C5_lru_eviction_witness :
    ((lruRun 2 1000 c5Ops).cache.entries.length =
        (lruRun 2 1000 c5Ops).cache.maxSize ∧
      0 < (lruRun 2 1000 c5Ops).cache.maxSize ∧
      lookupEntry (lruRun 2 1000 c5Ops).cache.entries "c" = none) ∧
      ∃ hd tl,
        (lruRun 2 1000 c5Ops).cache.entries = hd :: tl ∧
          (CacheService.set (lruRun 2 1000 c5Ops).cache "c" (c5Entry "uc")
                9).entries =
            tl ++ [("c", storedEntry (lruRun 2 1000 c5Ops).cache
              (c5Entry "uc") 9)] ∧
          ∀ p ∈ tl,
            (lruRun 2 1000 c5Ops).lastTouch hd.1 <
              (lruRun 2 1000 c5Ops).lastTouch p.1 :=
  ⟨⟨by decide, by decide, by decide⟩,
    C5_lru_eviction c5Ops 2 1000 "c" (c5Entry "uc") 9 (by decide) (by decide)
      (by decide)⟩

/-- Per-source metrics kept by PosterSource (PosterSource.js), together
with the rolling response-time window backing the average. -/
structure SourceMetrics where
  totalRequests : Nat
  successfulRequests : Nat
  failedRequests : Nat
  averageResponseTime : ℚ
  lastError : Option String
  consecutiveFailures : Nat
  isTemporarilyDisabled : Bool
  lastSuccessTime : Nat
  responseTimes : List Nat
  deriving DecidableEq, Repr

/-- Metrics of a freshly constructed source (also the result of
PosterSource.resetMetrics). -/
def freshMetrics : SourceMetrics :=
  { totalRequests := 0, successfulRequests := 0, failedRequests := 0,
    averageResponseTime := 0, lastError := none, consecutiveFailures := 0,
    isTemporarilyDisabled := false, lastSuccessTime := 0,
    responseTimes := [] }

namespace PosterSource

/-- PosterSource._updateAverageResponseTime: push the sample, keep only
the last 100 samples, store the arithmetic mean. -/
def updateAverageResponseTime (m : SourceMetrics) (rt : Nat) : SourceMetrics :=
  let times0 := m.responseTimes ++ [rt]
  let times := if 100 < times0.length then times0.tail else times0
  { m with
    responseTimes := times,
    averageResponseTime :=
      ((times.map fun t => (t : ℚ)).sum) / (times.length : ℚ) }

/-- PosterSource._recordSuccess. -/
def recordSuccess (m : SourceMetrics) (rt now : Nat) : SourceMetrics :=
  updateAverageResponseTime
    { m with
      totalRequests := m.totalRequests + 1,
      successfulRequests := m.successfulRequests + 1,
      consecutiveFailures := 0,
      lastSuccessTime := now } rt

/-- PosterSource._recordFailure: the response time is only sampled when
positive. -/
def recordFailure (m : SourceMetrics) (err : String) (rt : Nat) :
    SourceMetrics :=
  let m1 :=
    { m with
      totalRequests := m.totalRequests + 1,
      failedRequests := m.failedRequests + 1,
      consecutiveFailures := m.consecutiveFailures + 1,
      lastError := some err }
  if 0 < rt then updateAverageResponseTime m1 rt else m1

end PosterSource

/-- Circuit breaker mode of KitsuSource / TMDBSource. -/
inductive CircuitMode
  | CLOSED
  | OPEN
  | HALF_OPEN
  deriving DecidableEq, Repr

/-- Breaker parameters and cursor shared by KitsuSource and TMDBSource
(the two classes carry identical breaker code). -/
structure BreakerState where
  circuitState : CircuitMode
  failureThreshold : Nat
  disableDuration : Nat
  nextAttemptTime : Nat
  deriving DecidableEq, Repr

/-- Mutable state of a breaker-carrying source. -/
structure SourceState where
  isEnabled : Bool
  metrics : SourceMetrics
  breaker : BreakerState
  deriving DecidableEq, Repr

/-- Outcome of the underlying network fetch (the request function raced
against the timeout inside _executeWithMetrics): a URL, a definitive
not-found (null), or a raised error (HTTP error, transport failure or the
Timeout rejection). -/
inductive FetchOutcome
  | ok (url : Option String)
  | fail (err : String)
  deriving DecidableEq, Repr

/-- How one fetchPoster call rises or returns, distinguishing the
pre-wrapper rejections from the wrapped executions. -/
inductive AttemptResult
  | rejectedCircuit
  | rejectedInvalid (msg : String)
  | rejectedUnavailable
  | fetched (url : Option String)
  | fetchFail (err : String)
  deriving DecidableEq, Repr

namespace KitsuSource

/-- KitsuSource._canMakeRequest (identical in TMDBSource): note that in
the OPEN state with the cooldown elapsed it mutates the state to
HALF_OPEN as a side effect of the check. -/
def canMakeRequest (s : SourceState) (now : Nat) : Bool × SourceState :=
  match s.breaker.circuitState with
  | .CLOSED => (true, s)
  | .OPEN =>
      if s.breaker.nextAttemptTime ≤ now then
        (true,
          { s with breaker := { s.breaker with circuitState := .HALF_OPEN } })
      else (false, s)
  | .HALF_OPEN => (true, s)

/-- KitsuSource._onSuccess: only fires when the fetch produced a poster
URL (the null return path does not call it). -/
def onSuccess (s : SourceState) : SourceState :=
  if s.breaker.circuitState = .HALF_OPEN then
    { s with
      breaker := { s.breaker with circuitState := .CLOSED },
      metrics := { s.metrics with
        consecutiveFailures := 0, isTemporarilyDisabled := false } }
  else s

/-- KitsuSource._onFailure: a HALF_OPEN failure reopens immediately;
otherwise reaching the threshold opens the breaker.  The setTimeout that
later clears isTemporarilyDisabled is a separate timer event, modelled by
`cooldownTimerFire` below. -/
def onFailure (s : SourceState) (now : Nat) : SourceState :=
  if s.breaker.circuitState = .HALF_OPEN then
    { s with
      breaker := { s.breaker with
        circuitState := .OPEN,
        nextAttemptTime := now + s.breaker.disableDuration },
      metrics := { s.metrics with isTemporarilyDisabled := true } }
  else if s.breaker.failureThreshold ≤ s.metrics.consecutiveFailures then
    { s with
      breaker := { s.breaker with
        circuitState := .OPEN,
        nextAttemptTime := now + s.breaker.disableDuration },
      metrics := { s.metrics with isTemporarilyDisabled := true } }
  else s

/-- The timer scheduled by _onFailure: after the cooldown it clears the
temporarily-disabled flag if the breaker is still OPEN. -/
def cooldownTimerFire (s : SourceState) : SourceState :=
  if s.breaker.circuitState = .OPEN then
    { s with metrics := { s.metrics with isTemporarilyDisabled := false } }
  else s

/-- KitsuSource._recordFailure override: the parent bookkeeping followed
by the breaker transition. -/
def recordFailureCB (s : SourceState) (err : String) (rt now : Nat) :
    SourceState :=
  onFailure { s with metrics := PosterSource.recordFailure s.metrics err rt }
    now

/-- PosterSource.isAvailable. -/
def isAvailable (s : SourceState) : Bool :=
  s.isEnabled && !s.metrics.isTemporarilyDisabled

/-- KitsuSource.fetchPoster: breaker check (which may itself move
OPEN to HALF_OPEN), parameter validation, then _executeWithMetrics
(availability check, the raced fetch, then success/failure recording;
_onSuccess fires inside the request only when a URL was found). -/
def fetchPoster (s : SourceState) (animeIdValid : Bool)
    (outcome : FetchOutcome) (rt now : Nat) : AttemptResult × SourceState :=
  let checked := canMakeRequest s now
  if !checked.1 then (.rejectedCircuit, checked.2)
  else if !animeIdValid then
    (.rejectedInvalid "invalid-anime-id", checked.2)
  else if !(isAvailable checked.2) then (.rejectedUnavailable, checked.2)
  else
    match outcome with
    | .ok u =>
        let s2 := if u.isSome then onSuccess checked.2 else checked.2
        (.fetched u,
          { s2 with metrics := PosterSource.recordSuccess s2.metrics rt now })
    | .fail e => (.fetchFail e, recordFailureCB checked.2 e rt now)

end KitsuSource

namespace TMDBSource

/-- TMDBSource.fetchPoster: identical breaker and wrapper structure as
KitsuSource, with its own validations (anime name required, API key
required). -/
def fetchPoster (s : SourceState) (animeNameValid hasApiKey : Bool)
    (outcome : FetchOutcome) (rt now : Nat) : AttemptResult × SourceState :=
  let checked := KitsuSource.canMakeRequest s now
  if !checked.1 then (.rejectedCircuit, checked.2)
  else if !animeNameValid then
    (.rejectedInvalid "missing-anime-name", checked.2)
  else if !hasApiKey then (.rejectedInvalid "missing-api-key", checked.2)
  else if !(KitsuSource.isAvailable checked.2) then
    (.rejectedUnavailable, checked.2)
  else
    match outcome with
    | .ok u =>
        let s2 := if u.isSome then KitsuSource.onSuccess checked.2
          else checked.2
        (.fetched u,
          { s2 with metrics := PosterSource.recordSuccess s2.metrics rt now })
    | .fail e => (.fetchFail e, KitsuSource.recordFailureCB checked.2 e rt now)

end TMDBSource

@[simp] theorem updateAvg_totalRequests (m : SourceMetrics) (rt : Nat) :
    (PosterSource.updateAverageResponseTime m rt).totalRequests =
      m.totalRequests := rfl

@[simp] theorem updateAvg_successfulRequests (m : SourceMetrics) (rt : Nat) :
    (PosterSource.updateAverageResponseTime m rt).successfulRequests =
      m.successfulRequests := rfl

@[simp] theorem updateAvg_failedRequests (m : SourceMetrics) (rt : Nat) :
    (PosterSource.updateAverageResponseTime m rt).failedRequests =
      m.failedRequests := rfl

@[simp] theorem updateAvg_consecutiveFailures (m : SourceMetrics) (rt : Nat) :
    (PosterSource.updateAverageResponseTime m rt).consecutiveFailures =
      m.consecutiveFailures := rfl

@[simp] theorem updateAvg_isTemporarilyDisabled (m : SourceMetrics) (rt : Nat) :
    (PosterSource.updateAverageResponseTime m rt).isTemporarilyDisabled =
      m.isTemporarilyDisabled := rfl

@[simp] theorem updateAvg_lastError (m : SourceMetrics) (rt : Nat) :
    (PosterSource.updateAverageResponseTime m rt).lastError = m.lastError :=
  rfl

@[simp] theorem updateAvg_lastSuccessTime (m : SourceMetrics) (rt : Nat) :
    (PosterSource.updateAverageResponseTime m rt).lastSuccessTime =
      m.lastSuccessTime := rfl

@[simp] theorem recordSuccess_totalRequests (m : SourceMetrics)
    (rt now : Nat) :
    (PosterSource.recordSuccess m rt now).totalRequests =
      m.totalRequests + 1 := rfl

@[simp] theorem recordSuccess_successfulRequests (m : SourceMetrics)
    (rt now : Nat) :
    (PosterSource.recordSuccess m rt now).successfulRequests =
      m.successfulRequests + 1 := rfl

@[simp] theorem recordSuccess_failedRequests (m : SourceMetrics)
    (rt now : Nat) :
    (PosterSource.recordSuccess m rt now).failedRequests =
      m.failedRequests := rfl

@[simp] theorem recordSuccess_consecutiveFailures (m : SourceMetrics)
    (rt now : Nat) :
    (PosterSource.recordSuccess m rt now).consecutiveFailures = 0 := rfl

@[simp] theorem recordSuccess_isTemporarilyDisabled (m : SourceMetrics)
    (rt now : Nat) :
    (PosterSource.recordSuccess m rt now).isTemporarilyDisabled =
      m.isTemporarilyDisabled := rfl

@[simp] theorem recordFailure_totalRequests (m : SourceMetrics)
    (err : String) (rt : Nat) :
    (PosterSource.recordFailure m err rt).totalRequests =
      m.totalRequests + 1 := by
  by_cases h : 0 < rt <;> simp [PosterSource.recordFailure, h]

@[simp] theorem recordFailure_successfulRequests (m : SourceMetrics)
    (err : String) (rt : Nat) :
    (PosterSource.recordFailure m err rt).successfulRequests =
      m.successfulRequests := by
  by_cases h : 0 < rt <;> simp [PosterSource.recordFailure, h]

@[simp] theorem recordFailure_failedRequests (m : SourceMetrics)
    (err : String) (rt : Nat) :
    (PosterSource.recordFailure m err rt).failedRequests =
      m.failedRequests + 1 := by
  by_cases h : 0 < rt <;> simp [PosterSource.recordFailure, h]

@[simp] theorem recordFailure_consecutiveFailures (m : SourceMetrics)
    (err : String) (rt : Nat) :
    (PosterSource.recordFailure m err rt).consecutiveFailures =
      m.consecutiveFailures + 1 := by
  by_cases h : 0 < rt <;> simp [PosterSource.recordFailure, h]

@[simp] theorem recordFailure_isTemporarilyDisabled (m : SourceMetrics)
    (err : String) (rt : Nat) :
    (PosterSource.recordFailure m err rt).isTemporarilyDisabled =
      m.isTemporarilyDisabled := by
  by_cases h : 0 < rt <;> simp [PosterSource.recordFailure, h]

/-- C3 counterexample: the claim asserts that in HalfOpen ANY successful
attempt transitions the breaker to Closed.  A successful attempt that
finds no poster (the fetch returns null, recorded as a success by
_executeWithMetrics) does not call _onSuccess, so the breaker stays in
HALF_OPEN instead of transitioning to CLOSED. -/
theorem C3_counterexample :
    let s : SourceState :=
      { isEnabled := true, metrics := freshMetrics,
        breaker := { circuitState := .HALF_OPEN, failureThreshold := 10,
                     disableDuration := 1000, nextAttemptTime := 0 } }
    (KitsuSource.fetchPoster s true (.ok none) 5
          50).2.metrics.successfulRequests = 1 ∧
      (KitsuSource.fetchPoster s true (.ok none) 5
          50).2.metrics.consecutiveFailures = 0 ∧
      (KitsuSource.fetchPoster s true (.ok none) 5
          50).2.breaker.circuitState = .HALF_OPEN ∧
      CircuitMode.HALF_OPEN ≠ CircuitMode.CLOSED := by
  decide

/-- C3 (amended): the breaker follows the Closed/Open/HalfOpen step
relation of the source: in Closed, a failure reaching
consecutiveFailures >= threshold opens the breaker with
nextAttemptAt = now + cooldown and the disabled mark set, below the
threshold it stays Closed; while Open with now < nextAttemptAt every
attempt is rejected without invoking the fetch and without changing the
state; once now >= nextAttemptAt the probe runs in HalfOpen; in HalfOpen
(whether entered by the probe or already there) an attempt that yields a
URL closes the breaker, resets consecutiveFailures and clears the
disabled flag, a failure reopens immediately with a fresh cooldown, and —
unlike the claim — a successful attempt with no URL leaves the breaker in
HalfOpen (its consecutiveFailures still reset to 0 by the recorder). -/
theorem C3_breaker_step (s : SourceState) (e u : String) (rt now : Nat)
    (hen : s.isEnabled = true)
    (hdis : s.metrics.isTemporarilyDisabled = false) :
    (s.breaker.circuitState = .CLOSED →
      s.breaker.failureThreshold ≤ s.metrics.consecutiveFailures + 1 →
      (KitsuSource.fetchPoster s true (.fail e) rt
            now).2.breaker.circuitState = .OPEN ∧
        (KitsuSource.fetchPoster s true (.fail e) rt
              now).2.breaker.nextAttemptTime =
          now + s.breaker.disableDuration ∧
        (KitsuSource.fetchPoster s true (.fail e) rt
              now).2.metrics.isTemporarilyDisabled = true) ∧
    (s.breaker.circuitState = .CLOSED →
      s.metrics.consecutiveFailures + 1 < s.breaker.failureThreshold →
      (KitsuSource.fetchPoster s true (.fail e) rt
            now).2.breaker.circuitState = .CLOSED) ∧
    (s.breaker.circuitState = .OPEN → now < s.breaker.nextAttemptTime →
      ∀ (valid : Bool) (out : FetchOutcome),
        KitsuSource.fetchPoster s valid out rt now =
          (.rejectedCircuit, s)) ∧
    (s.breaker.circuitState = .OPEN → s.breaker.nextAttemptTime ≤ now →
      ((KitsuSource.fetchPoster s true (.ok (some u)) rt
              now).2.breaker.circuitState = .CLOSED ∧
        (KitsuSource.fetchPoster s true (.ok (some u)) rt
              now).2.metrics.consecutiveFailures = 0 ∧
        (KitsuSource.fetchPoster s true (.ok (some u)) rt
              now).2.metrics.isTemporarilyDisabled = false) ∧
      ((KitsuSource.fetchPoster s true (.fail e) rt
              now).2.breaker.circuitState = .OPEN ∧
        (KitsuSource.fetchPoster s true (.fail e) rt
              now).2.breaker.nextAttemptTime =
          now + s.breaker.disableDuration) ∧
      ((KitsuSource.fetchPoster s true (.ok none) rt
              now).2.breaker.circuitState = .HALF_OPEN ∧
        (KitsuSource.fetchPoster s true (.ok none) rt
              now).2.metrics.consecutiveFailures = 0)) ∧
    (s.breaker.circuitState = .HALF_OPEN →
      ((KitsuSource.fetchPoster s true (.ok (some u)) rt
              now).2.breaker.circuitState = .CLOSED ∧
        (KitsuSource.fetchPoster s true (.ok (some u)) rt
              now).2.metrics.consecutiveFailures = 0 ∧
        (KitsuSource.fetchPoster s true (.ok (some u)) rt
              now).2.metrics.isTemporarilyDisabled = false) ∧
      ((KitsuSource.fetchPoster s true (.fail e) rt
              now).2.breaker.circuitState = .OPEN ∧
        (KitsuSource.fetchPoster s true (.fail e) rt
              now).2.breaker.nextAttemptTime =
          now + s.breaker.disableDuration) ∧
      ((KitsuSource.fetchPoster s true (.ok none) rt
              now).2.breaker.circuitState = .HALF_OPEN ∧
        (KitsuSource.fetchPoster s true (.ok none) rt
              now).2.metrics.consecutiveFailures = 0)) := by
  refine ⟨?_, ?_, ?_, ?_, ?_⟩
  · intro h1 h2
    simp [KitsuSource.fetchPoster, KitsuSource.canMakeRequest, h1,
      KitsuSource.isAvailable, hen, hdis, KitsuSource.recordFailureCB,
      KitsuSource.onFailure, h2]
  · intro h1 h2
    have h2' : ¬ s.breaker.failureThreshold ≤
        s.metrics.consecutiveFailures + 1 := by omega
    simp [KitsuSource.fetchPoster, KitsuSource.canMakeRequest, h1,
      KitsuSource.isAvailable, hen, hdis, KitsuSource.recordFailureCB,
      KitsuSource.onFailure, h2']
  · intro h1 h2 valid out
    have h2' : ¬ s.breaker.nextAttemptTime ≤ now := by omega
    simp [KitsuSource.fetchPoster, KitsuSource.canMakeRequest, h1, h2']
  · intro h1 h2
    refine ⟨?_, ?_, ?_⟩ <;>
      simp [KitsuSource.fetchPoster, KitsuSource.canMakeRequest, h1, h2,
        KitsuSource.isAvailable, hen, hdis, KitsuSource.onSuccess,
        KitsuSource.recordFailureCB, KitsuSource.onFailure]
  · intro h1
    refine ⟨?_, ?_, ?_⟩ <;>
      simp [KitsuSource.fetchPoster, KitsuSource.canMakeRequest, h1,
        KitsuSource.isAvailable, hen, hdis, KitsuSource.onSuccess,
        KitsuSource.recordFailureCB, KitsuSource.onFailure]

/-- Concrete source state on the verge of tripping its breaker, used to
witness C3_breaker_step. -/
def c3State : SourceState :=
  { isEnabled := true,
    metrics := { freshMetrics with consecutiveFailures := 9 },
    breaker := { circuitState := .CLOSED, failureThreshold := 10,
                 disableDuration := 60000, nextAttemptTime := 0 } }

/-- Witness for C3_breaker_step: the tenth consecutive failure opens the
breaker of a closed source with threshold 10. -/
theorem C3_breaker_step_witness :
    (KitsuSource.fetchPoster c3State true (.fail "http-500") 5
          50).2.breaker.circuitState = .OPEN ∧
      (KitsuSource.fetchPoster c3State true (.fail "http-500") 5
            50).2.breaker.nextAttemptTime = 60050 ∧
      (KitsuSource.fetchPoster c3State true (.fail "http-500") 5
            50).2.metrics.isTemporarilyDisabled = true :=
  (C3_breaker_step c3State "http-500" "u" 5 50 rfl rfl).1 rfl (by decide)

/-- Classification of the fetchPoster results that are raised before the
metrics-recording wrapper body runs. -/
def isRejection : AttemptResult → Bool
  | .rejectedCircuit => true
  | .rejectedInvalid _ => true
  | .rejectedUnavailable => true
  | .fetched _ => false
  | .fetchFail _ => false

theorem canMakeRequest_metrics (s : SourceState) (now : Nat) :
    (KitsuSource.canMakeRequest s now).2.metrics = s.metrics := by
  cases hcs : s.breaker.circuitState with
  | CLOSED => simp [KitsuSource.canMakeRequest, hcs]
  | HALF_OPEN => simp [KitsuSource.canMakeRequest, hcs]
  | OPEN =>
      by_cases h : s.breaker.nextAttemptTime ≤ now <;>
        simp [KitsuSource.canMakeRequest, hcs, h]

theorem canMakeRequest_cases (s : SourceState) (now : Nat) :
    (KitsuSource.canMakeRequest s now).2 = s ∨
      (s.breaker.circuitState = .OPEN ∧ s.breaker.nextAttemptTime ≤ now ∧
        (KitsuSource.canMakeRequest s now).2 =
          { s with breaker :=
              { s.breaker with circuitState := .HALF_OPEN } }) := by
  cases hcs : s.breaker.circuitState with
  | CLOSED => exact Or.inl (by simp [KitsuSource.canMakeRequest, hcs])
  | HALF_OPEN => exact Or.inl (by simp [KitsuSource.canMakeRequest, hcs])
  | OPEN =>
      by_cases h : s.breaker.nextAttemptTime ≤ now
      · exact Or.inr ⟨rfl, h, by simp [KitsuSource.canMakeRequest, hcs, h]⟩
      · exact Or.inl (by simp [KitsuSource.canMakeRequest, hcs, h])

theorem kitsu_rejected_state (s : SourceState) (valid : Bool)
    (out : FetchOutcome) (rt now : Nat)
    (h : isRejection (KitsuSource.fetchPoster s valid out rt now).1 = true) :
    (KitsuSource.fetchPoster s valid out rt now).2 =
      (KitsuSource.canMakeRequest s now).2 := by
  cases hc : (KitsuSource.canMakeRequest s now).1 with
  | false => simp [KitsuSource.fetchPoster, hc]
  | true =>
      cases valid with
      | false => simp [KitsuSource.fetchPoster, hc]
      | true =>
          cases hav : KitsuSource.isAvailable
              (KitsuSource.canMakeRequest s now).2 with
          | false => simp [KitsuSource.fetchPoster, hc, hav]
          | true =>
              cases out <;>
                simp [KitsuSource.fetchPoster, hc, hav, isRejection] at h

theorem tmdb_rejected_state (s : SourceState) (valid hasKey : Bool)
    (out : FetchOutcome) (rt now : Nat)
    (h : isRejection
      (TMDBSource.fetchPoster s valid hasKey out rt now).1 = true) :
    (TMDBSource.fetchPoster s valid hasKey out rt now).2 =
      (KitsuSource.canMakeRequest s now).2 := by
  cases hc : (KitsuSource.canMakeRequest s now).1 with
  | false => simp [TMDBSource.fetchPoster, hc]
  | true =>
      cases valid with
      | false => simp [TMDBSource.fetchPoster, hc]
      | true =>
          cases hasKey with
          | false => simp [TMDBSource.fetchPoster, hc]
          | true =>
              cases hav : KitsuSource.isAvailable
                  (KitsuSource.canMakeRequest s now).2 with
              | false => simp [TMDBSource.fetchPoster, hc, hav]
              | true =>
                  cases out <;>
                    simp [TMDBSource.fetchPoster, hc, hav, isRejection] at h

/-- C10 counterexample: the claim asserts that precondition rejections
leave the circuit-breaker state unchanged.  When the breaker is OPEN with
the cooldown elapsed, _canMakeRequest flips the state to HALF_OPEN before
the parameter validation runs, so a call rejected for an invalid anime id
still changes the breaker state (metrics are indeed untouched). -/
theorem C10_counterexample :
    let s : SourceState :=
      { isEnabled := true, metrics := freshMetrics,
        breaker := { circuitState := .OPEN, failureThreshold := 10,
                     disableDuration := 1000, nextAttemptTime := 100 } }
    (KitsuSource.fetchPoster s false (.ok none) 0 100).1 =
        .rejectedInvalid "invalid-anime-id" ∧
      (KitsuSource.fetchPoster s false (.ok none) 0 100).2.metrics =
        s.metrics ∧
      (KitsuSource.fetchPoster s false (.ok none) 0
          100).2.breaker.circuitState = .HALF_OPEN ∧
      s.breaker.circuitState = .OPEN ∧
      CircuitMode.HALF_OPEN ≠ CircuitMode.OPEN := by
  decide

/-- C10 (amended): every precondition rejection of Kitsu or TMDB
fetchPoster — circuit open, invalid id / missing name / missing API key,
or source unavailable — is raised before the metrics wrapper runs, so all
metrics fields are unchanged; the breaker state is also unchanged except
that a call arriving while the breaker is Open with now >= nextAttemptAt
flips it to HalfOpen during the breaker check, even when the call is then
rejected by validation or unavailability. -/
theorem C10_rejection_preserves_metrics (s : SourceState)
    (valid hasKey : Bool) (out : FetchOutcome) (rt now : Nat) :
    (isRejection (KitsuSource.fetchPoster s valid out rt now).1 = true →
      (KitsuSource.fetchPoster s valid out rt now).2.metrics = s.metrics ∧
        ((KitsuSource.fetchPoster s valid out rt now).2 = s ∨
          (s.breaker.circuitState = .OPEN ∧
            s.breaker.nextAttemptTime ≤ now ∧
            (KitsuSource.fetchPoster s valid out rt now).2 =
              { s with breaker :=
                  { s.breaker with circuitState := .HALF_OPEN } }))) ∧
    (isRejection (TMDBSource.fetchPoster s valid hasKey out rt now).1 =
        true →
      (TMDBSource.fetchPoster s valid hasKey out rt now).2.metrics =
          s.metrics ∧
        ((TMDBSource.fetchPoster s valid hasKey out rt now).2 = s ∨
          (s.breaker.circuitState = .OPEN ∧
            s.breaker.nextAttemptTime ≤ now ∧
            (TMDBSource.fetchPoster s valid hasKey out rt now).2 =
              { s with breaker :=
                  { s.breaker with circuitState := .HALF_OPEN } }))) := by
  constructor
  · intro h
    rw [kitsu_rejected_state s valid out rt now h]
    exact ⟨canMakeRequest_metrics s now, canMakeRequest_cases s now⟩
  · intro h
    rw [tmdb_rejected_state s valid hasKey out rt now h]
    exact ⟨canMakeRequest_metrics s now, canMakeRequest_cases s now⟩

/-- Concrete open-and-due source state used to witness C10. -/
def c10State : SourceState :=
  { isEnabled := true, metrics := freshMetrics,
    breaker := { circuitState := .OPEN, failureThreshold := 10,
                 disableDuration := 1000, nextAttemptTime := 100 } }

/-- Witness for C10_rejection_preserves_metrics on a validation-rejected
Kitsu call with the breaker open and due. -/
theorem C10_rejection_preserves_metrics_witness :
    (KitsuSource.fetchPoster c10State false (.ok none) 0 100).2.metrics =
        c10State.metrics ∧
      ((KitsuSource.fetchPoster c10State false (.ok none) 0 100).2 =
          c10State ∨
        (c10State.breaker.circuitState = .OPEN ∧
          c10State.breaker.nextAttemptTime ≤ 100 ∧
          (KitsuSource.fetchPoster c10State false (.ok none) 0 100).2 =
            { c10State with breaker :=
                { c10State.breaker with circuitState := .HALF_OPEN } })) :=
  (C10_rejection_preserves_metrics c10State false false (.ok none) 0
    100).1 (by decide)

/-- What one registered source does when the fallback chain calls its
fetchPoster on this walk: either it raises before the metrics wrapper
(validation or circuit-breaker rejection, leaving its metrics untouched)
or the wrapper runs the fetch with the given outcome and response time. -/
inductive AttemptSpec
  | rejected (err : String)
  | performed (outcome : FetchOutcome) (rt : Nat)
  deriving DecidableEq, Repr

/-- State echoed by the rateLimit block of the getMetrics overrides:
KitsuSource reports its per-minute limit, interval and lastRequestTime;
TMDBSource reports its window limit, window length and recorded request
timestamps.  NautiljonSource overrides nothing. -/
inductive RateLimitEcho
  | perMinute (limit interval lastRequestTime : ℚ)
  | window10s (limit : Nat) (window : ℚ) (requestTimes : List ℚ)
  deriving DecidableEq, Repr

/-- Per-source state surfaced by the KitsuSource/TMDBSource getMetrics
overrides beyond the base PosterSource metrics: the circuit breaker, the
rate limiter echo and the configuration constants (imageBaseUrl and
hasApiKey only exist on TMDB, hence the Options). -/
structure SourceExtraState where
  breaker : BreakerState
  rateLimit : RateLimitEcho
  timeout : Nat
  baseUrl : String
  imageBaseUrl : Option String
  hasApiKey : Option Bool
  deriving DecidableEq, Repr

/-- A source as seen by FallbackChain: its identity, priority, enabled
flag, metrics, an oracle for the single attempt this walk makes, and —
for the breaker-carrying Kitsu/TMDB sources — the state their getMetrics
override reports (none for a plain PosterSource such as Nautiljon). -/
structure ChainSource where
  name : String
  priority : Nat
  isEnabled : Bool
  metrics : SourceMetrics
  attempt : AttemptSpec
  extra : Option SourceExtraState
  deriving DecidableEq, Repr

namespace FallbackChain

/-- PosterSource.isAvailable as checked inside the chain loop. -/
def availableSrc (s : ChainSource) : Bool :=
  s.isEnabled && !s.metrics.isTemporarilyDisabled

/-- The failure threshold used by the chain-level breaker check
(FallbackChain._getFailureThreshold). -/
def failureThreshold : Nat := 10

/-- Result of FallbackChain.fetchPoster. -/
structure WalkResult where
  url : Option String
  source : String
  deriving DecidableEq, Repr

/-- The metrics bookkeeping of PosterSource._executeWithMetrics once the
availability gate has been passed: success recording (also for a null
result) or failure recording. -/
def executedMetrics (m : SourceMetrics) (outcome : FetchOutcome)
    (rt now : Nat) : SourceMetrics :=
  match outcome with
  | .ok _ => PosterSource.recordSuccess m rt now
  | .fail e => PosterSource.recordFailure m e rt

/-- FallbackChain.fetchPoster over the priority-ordered source list:
skip unavailable sources; a URL ends the walk; a null result continues to
the next source; an error records the failure, applies the chain-level
temporary disable when the consecutive-failure threshold is reached, and
continues.  Returns the result together with the sources carrying their
updated metrics. -/
def walk (now : Nat) : List ChainSource → WalkResult × List ChainSource
  | [] => ({ url := none, source := "all_sources_failed" }, [])
  | s :: rest =>
      if !availableSrc s then
        let r := walk now rest
        (r.1, s :: r.2)
      else
        match s.attempt with
        | .rejected _ =>
            let s1 :=
              if failureThreshold ≤ s.metrics.consecutiveFailures then
                { s with metrics :=
                    { s.metrics with isTemporarilyDisabled := true } }
              else s
            let r := walk now rest
            (r.1, s1 :: r.2)
        | .performed (.ok (some u)) rt =>
            ({ url := some u, source := s.name },
              { s with
                metrics := PosterSource.recordSuccess s.metrics rt now } ::
                rest)
        | .performed (.ok none) rt =>
            let s1 :=
              { s with
                metrics := PosterSource.recordSuccess s.metrics rt now }
            let r := walk now rest
            (r.1, s1 :: r.2)
        | .performed (.fail e) rt =>
            let m1 := PosterSource.recordFailure s.metrics e rt
            let s1 :=
              if failureThreshold ≤ m1.consecutiveFailures then
                { s with metrics :=
                    { m1 with isTemporarilyDisabled := true } }
              else { s with metrics := m1 }
            let r := walk now rest
            (r.1, s1 :: r.2)

/-- Stable insertion into a priority-sorted list (the sort of
_getOrderedSources). -/
def insertByPriority (s : ChainSource) :
    List ChainSource → List ChainSource
  | [] => [s]
  | t :: ts =>
      if s.priority ≤ t.priority then s :: t :: ts
      else t :: insertByPriority s ts

/-- FallbackChain._getOrderedSources: enabled sources sorted by ascending
priority, ties keeping registration order. -/
def getOrderedSources (l : List ChainSource) : List ChainSource :=
  (l.filter fun s => s.isEnabled).foldr insertByPriority []

/-- FallbackChain.fetchPoster: the empty ordered list short-circuits with
the no_sources_available sentinel, otherwise the walk runs. -/
def fetchPoster (l : List ChainSource) (now : Nat) :
    WalkResult × List ChainSource :=
  let ordered := getOrderedSources l
  match ordered with
  | [] => ({ url := none, source := "no_sources_available" }, [])
  | _ => walk now ordered

end FallbackChain

/-- C6: a provider attempt that completes without error but yields no URL
is recorded as a success for that provider — successfulRequests
increments, consecutiveFailures resets to 0, failedRequests is unchanged
— and the chain continues with the next provider of the priority order,
whose outcome determines the walk result. -/
theorem C6_notfound_is_success (s : ChainSource)
    (rest : List ChainSource) (rt now : Nat)
    (hen : s.isEnabled = true)
    (hdis : s.metrics.isTemporarilyDisabled = false)
    (hatt : s.attempt = .performed (.ok none) rt) :
    (FallbackChain.walk now (s :: rest)).1 =
        (FallbackChain.walk now rest).1 ∧
      (FallbackChain.walk now (s :: rest)).2 =
        { s with metrics := PosterSource.recordSuccess s.metrics rt now } ::
          (FallbackChain.walk now rest).2 ∧
      (PosterSource.recordSuccess s.metrics rt now).successfulRequests =
        s.metrics.successfulRequests + 1 ∧
      (PosterSource.recordSuccess s.metrics rt now).consecutiveFailures =
        0 ∧
      (PosterSource.recordSuccess s.metrics rt now).failedRequests =
        s.metrics.failedRequests := by
  refine ⟨?_, ?_, by simp, by simp, by simp⟩ <;>
    simp [FallbackChain.walk, FallbackChain.availableSrc, hen, hdis, hatt]

/-- Concrete not-found source used to witness C6. -/
def c6Source : ChainSource :=
  { name := "kitsu", priority := 1, isEnabled := true,
    metrics := { freshMetrics with
                 consecutiveFailures := 4,
                 failedRequests := 4, totalRequests := 4 },
    attempt := .performed (.ok none) 7, extra := none }

/-- Concrete successor source used to witness C6. -/
def c6Next : ChainSource :=
  { name := "tmdb", priority := 2, isEnabled := true,
    metrics := freshMetrics, attempt := .performed (.ok (some "u2")) 3,
    extra := none }

/-- Witness for C6_notfound_is_success: the not-found source records a
success and the walk result comes from the next source. -/
theorem C6_notfound_is_success_witness :
    (FallbackChain.walk 50 [c6Source, c6Next]).1 =
        (FallbackChain.walk 50 [c6Next]).1 ∧
      (FallbackChain.walk 50 [c6Source, c6Next]).2 =
        { c6Source with
            metrics := PosterSource.recordSuccess c6Source.metrics 7 50 } ::
          (FallbackChain.walk 50 [c6Next]).2 ∧
      (PosterSource.recordSuccess c6Source.metrics 7
          50).successfulRequests =
        c6Source.metrics.successfulRequests + 1 ∧
      (PosterSource.recordSuccess c6Source.metrics 7
          50).consecutiveFailures = 0 ∧
      (PosterSource.recordSuccess c6Source.metrics 7 50).failedRequests =
        c6Source.metrics.failedRequests :=
  C6_notfound_is_success c6Source [c6Next] 7 50 (by decide) (by decide)
    (by decide)

/-- Global metrics kept by MetricsCollector (MetricsCollector.js),
together with the rolling response-time window.  sourceUsage maps a
source name to its (success, failure) tallies, errorTypes maps an error
kind to its count; both are JS objects with insertion order, modelled as
association lists. -/
structure GlobalMetrics where
  totalRequests : Nat
  successfulRequests : Nat
  failedRequests : Nat
  cacheHits : Nat
  cacheMisses : Nat
  averageResponseTime : ℚ
  sourceUsage : List (String × Nat × Nat)
  errorTypes : List (String × Nat)
  startTime : Nat
  responseTimes : List Nat
  deriving DecidableEq, Repr

namespace MetricsCollector

/-- A freshly constructed (or reset) collector started at the given
instant. -/
def fresh (startTime : Nat) : GlobalMetrics :=
  { totalRequests := 0, successfulRequests := 0, failedRequests := 0,
    cacheHits := 0, cacheMisses := 0, averageResponseTime := 0,
    sourceUsage := [], errorTypes := [], startTime := startTime,
    responseTimes := [] }

def recordCacheHit (m : GlobalMetrics) : GlobalMetrics :=
  { m with cacheHits := m.cacheHits + 1 }

def recordCacheMiss (m : GlobalMetrics) : GlobalMetrics :=
  { m with cacheMisses := m.cacheMisses + 1 }

/-- Per-source tally bump, creating the entry on first use (JS object
field creation appends in insertion order). -/
def upsertUsage (l : List (String × Nat × Nat)) (src : String)
    (succ : Bool) : List (String × Nat × Nat) :=
  match l with
  | [] => [(src, if succ then 1 else 0, if succ then 0 else 1)]
  | (k, sc, fc) :: t =>
      if k = src then
        (k, (if succ then sc + 1 else sc),
          (if succ then fc else fc + 1)) :: t
      else (k, sc, fc) :: upsertUsage t src succ

/-- Per-error-kind tally bump. -/
def upsertErrorType (l : List (String × Nat)) (kind : String) :
    List (String × Nat) :=
  match l with
  | [] => [(kind, 1)]
  | (k, c) :: t =>
      if k = kind then (k, c + 1) :: t else (k, c) :: upsertErrorType t kind

/-- MetricsCollector._updateAverageResponseTime (window of 1000). -/
def updateAverageResponseTime (m : GlobalMetrics) (rt : Nat) :
    GlobalMetrics :=
  let times0 := m.responseTimes ++ [rt]
  let times := if 1000 < times0.length then times0.tail else times0
  { m with
    responseTimes := times,
    averageResponseTime :=
      ((times.map fun t => (t : ℚ)).sum) / (times.length : ℚ) }

/-- MetricsCollector.recordSuccess (responseTime defaults to 0, in which
case the average is not updated). -/
def recordSuccess (m : GlobalMetrics) (source : String) (rt : Nat) :
    GlobalMetrics :=
  let m1 :=
    { m with
      totalRequests := m.totalRequests + 1,
      successfulRequests := m.successfulRequests + 1,
      sourceUsage := upsertUsage m.sourceUsage source true }
  if 0 < rt then updateAverageResponseTime m1 rt else m1

/-- MetricsCollector.recordFailure with an optional failing source. -/
def recordFailure (m : GlobalMetrics) (errorType : String)
    (source : Option String) : GlobalMetrics :=
  let m1 :=
    { m with
      totalRequests := m.totalRequests + 1,
      failedRequests := m.failedRequests + 1,
      errorTypes := upsertErrorType m.errorTypes errorType }
  match source with
  | none => m1
  | some src => { m1 with sourceUsage := upsertUsage m1.sourceUsage src false }

/-- MetricsCollector.recordError: delegates to recordFailure with the
error name and no source. -/
def recordError (m : GlobalMetrics) (errName : String) : GlobalMetrics :=
  recordFailure m errName none

/-- View returned by MetricsCollector.getStats.  The `or 0` guards of the
source map NaN (0/0) to 0, which rational division by zero also gives;
the one divergence is requestsPerMinute at uptime = 0 with positive
totalRequests, where JS produces Infinity (unrepresentable here and never
reached, since stats are read strictly after construction). -/
structure StatsView where
  totalRequests : Nat
  successfulRequests : Nat
  failedRequests : Nat
  cacheHits : Nat
  cacheMisses : Nat
  averageResponseTime : ℚ
  sourceUsage : List (String × Nat × Nat)
  errorTypes : List (String × Nat)
  startTime : Nat
  uptime : Nat
  successRate : ℚ
  cacheHitRate : ℚ
  requestsPerMinute : ℚ
  deriving DecidableEq, Repr

/-- MetricsCollector.getStats: spreads the raw counters and derives
uptime (from the current wall clock) and the three rates. -/
def getStats (m : GlobalMetrics) (now : Nat) : StatsView :=
  let uptime := now - m.startTime
  { totalRequests := m.totalRequests,
    successfulRequests := m.successfulRequests,
    failedRequests := m.failedRequests,
    cacheHits := m.cacheHits, cacheMisses := m.cacheMisses,
    averageResponseTime := m.averageResponseTime,
    sourceUsage := m.sourceUsage, errorTypes := m.errorTypes,
    startTime := m.startTime, uptime := uptime,
    successRate :=
      if 0 < m.totalRequests then
        (m.successfulRequests : ℚ) / (m.totalRequests : ℚ)
      else 0,
    cacheHitRate :=
      if 0 < m.cacheHits + m.cacheMisses then
        (m.cacheHits : ℚ) / ((m.cacheHits : ℚ) + (m.cacheMisses : ℚ))
      else 0,
    requestsPerMinute := (m.totalRequests : ℚ) / ((uptime : ℚ) / 60000) }

end MetricsCollector

/-- Result returned by PosterManager.getPoster (responseTime omitted:
none of the claims constrain it). -/
structure PosterResult where
  url : Option String
  source : String
  fromCache : Bool
  deriving DecidableEq, Repr

namespace PosterManager

/-- The sentinel result of the catch-all branch of _getPosterInternal. -/
def errorResult : PosterResult :=
  { url := none, source := "error", fromCache := false }

/-- Result of a FallbackChain.fetchPoster call as consumed by the
manager. -/
structure ChainAnswer where
  url : Option String
  source : String
  deriving DecidableEq, Repr

/-- PosterManager._getPosterInternal: cache lookup, fallback walk and
cache store are oracles that either return or raise, every raise being
absorbed by the surrounding try/catch into the error sentinel after
recording the error.  Returns the result together with the updated
global metrics. -/
def getPosterInternal (g : GlobalMetrics)
    (cacheLookup : Except String (Option CacheEntry))
    (chainFetch : Except String ChainAnswer)
    (cacheStore : Except String Unit) : PosterResult × GlobalMetrics :=
  match cacheLookup with
  | .error e => (errorResult, MetricsCollector.recordError g e)
  | .ok (some entry) =>
      ({ url := some entry.posterUrl, source := entry.source,
         fromCache := true }, MetricsCollector.recordCacheHit g)
  | .ok none =>
      let g1 := MetricsCollector.recordCacheMiss g
      match chainFetch with
      | .error e => (errorResult, MetricsCollector.recordError g1 e)
      | .ok fr =>
          match fr.url with
          | some u =>
              match cacheStore with
              | .error e => (errorResult, MetricsCollector.recordError g1 e)
              | .ok _ =>
                  ({ url := some u, source := fr.source, fromCache := false },
                    MetricsCollector.recordSuccess g1 fr.source 0)
          | none =>
              ({ url := none, source := fr.source, fromCache := false },
                MetricsCollector.recordFailure g1 "all_sources_failed" none)

/-- The proposition that the executed path of _getPosterInternal raises
an internal error: the cache lookup raises, or the fallback walk raises
after a cache miss, or the cache store raises after a successful walk. -/
def internalErrorOccurs (cacheLookup : Except String (Option CacheEntry))
    (chainFetch : Except String ChainAnswer)
    (cacheStore : Except String Unit) : Prop :=
  (∃ e, cacheLookup = .error e) ∨
    (cacheLookup = .ok none ∧ ∃ e, chainFetch = .error e) ∨
    (cacheLookup = .ok none ∧
      ∃ fr u, chainFetch = .ok fr ∧ fr.url = some u ∧
        ∃ e, cacheStore = .error e)

end PosterManager

/-- C2: the manager entry point always returns a PosterResult — the
embedding is a total function, so no raise can reach the caller — and on
every internal error of the executed path the result is the sentinel
(source error, url absent, fromCache false) and the error is recorded in
the global failure counter. -/
theorem C2_resolve_never_raises (g : GlobalMetrics)
    (cacheLookup : Except String (Option CacheEntry))
    (chainFetch : Except String PosterManager.ChainAnswer)
    (cacheStore : Except String Unit)
    (herr : PosterManager.internalErrorOccurs cacheLookup chainFetch
      cacheStore) :
    (PosterManager.getPosterInternal g cacheLookup chainFetch
        cacheStore).1.url = none ∧
      (PosterManager.getPosterInternal g cacheLookup chainFetch
          cacheStore).1.source = "error" ∧
      (PosterManager.getPosterInternal g cacheLookup chainFetch
          cacheStore).1.fromCache = false ∧
      (PosterManager.getPosterInternal g cacheLookup chainFetch
          cacheStore).2.failedRequests = g.failedRequests + 1 := by
  rcases herr with ⟨e, rfl⟩ | ⟨hmiss, e, rfl⟩ | ⟨hmiss, fr, u, hfr, hurl, e, rfl⟩
  · refine ⟨rfl, rfl, rfl, ?_⟩
    simp [PosterManager.getPosterInternal, PosterManager.errorResult,
      MetricsCollector.recordError, MetricsCollector.recordFailure]
  · rw [hmiss]
    refine ⟨rfl, rfl, rfl, ?_⟩
    simp [PosterManager.getPosterInternal, PosterManager.errorResult,
      MetricsCollector.recordError, MetricsCollector.recordFailure,
      MetricsCollector.recordCacheMiss]
  · rw [hmiss, hfr]
    refine ⟨?_, ?_, ?_, ?_⟩ <;>
      simp [PosterManager.getPosterInternal, PosterManager.errorResult,
        hurl, MetricsCollector.recordError, MetricsCollector.recordFailure,
        MetricsCollector.recordCacheMiss]

/-- Witness for C2_resolve_never_raises: a raising fallback walk after a
cache miss yields the recorded sentinel. -/
theorem C2_resolve_never_raises_witness :
    (PosterManager.getPosterInternal (MetricsCollector.fresh 0) (.ok none)
        (.error "network-down") (.ok ())).1.url = none ∧
      (PosterManager.getPosterInternal (MetricsCollector.fresh 0) (.ok none)
          (.error "network-down") (.ok ())).1.source = "error" ∧
      (PosterManager.getPosterInternal (MetricsCollector.fresh 0) (.ok none)
          (.error "network-down") (.ok ())).1.fromCache = false ∧
      (PosterManager.getPosterInternal (MetricsCollector.fresh 0) (.ok none)
          (.error "network-down") (.ok ())).2.failedRequests =
        (MetricsCollector.fresh 0).failedRequests + 1 :=
  C2_resolve_never_raises (MetricsCollector.fresh 0) (.ok none)
    (.error "network-down") (.ok ())
    (Or.inr (Or.inl ⟨rfl, "network-down", rfl⟩))

/-- State aggregated by PosterManager.getStats: the cache, the chain
sources, the global collector and the configured source count. -/
structure ManagerState where
  cache : CacheState
  sources : List ChainSource
  global : GlobalMetrics
  sourcesCount : Nat
  deriving Repr

/-- Snapshot returned by getCircuitBreakerState of KitsuSource (line 197)
and TMDBSource (line 617): note timeUntilNextAttempt, which is derived
from the wall clock at read time. -/
structure BreakerSnapshot where
  state : CircuitMode
  consecutiveFailures : Nat
  failureThreshold : Nat
  nextAttemptTime : Nat
  timeUntilNextAttempt : Nat
  isTemporarilyDisabled : Bool
  disableDuration : Nat
  deriving DecidableEq, Repr

/-- The rateLimit block as emitted by the getMetrics overrides: TMDB also
reports currentRequests = requestTimes.length, computed from limiter
state at read time (no wall clock involved). -/
inductive RateLimitView
  | perMinute (limit interval lastRequestTime : ℚ)
  | window10s (limit : Nat) (window : ℚ) (currentRequests : Nat)
      (requestTimes : List ℚ)
  deriving DecidableEq, Repr

def rateLimitView : RateLimitEcho → RateLimitView
  | .perMinute l i t => .perMinute l i t
  | .window10s l w ts => .window10s l w ts.length ts

/-- The configuration block of the getMetrics overrides (constants of the
source; imageBaseUrl and hasApiKey only on TMDB). -/
structure ConfigEcho where
  timeout : Nat
  baseUrl : String
  imageBaseUrl : Option String
  hasApiKey : Option Bool
  failureThreshold : Nat
  disableDuration : Nat
  deriving DecidableEq, Repr

/-- The extension a Kitsu/TMDB getMetrics override adds on top of the
base PosterSource metrics. -/
structure ExtraStatsView where
  circuitBreaker : BreakerSnapshot
  rateLimit : RateLimitView
  configuration : ConfigEcho
  deriving DecidableEq, Repr

/-- KitsuSource.getCircuitBreakerState / TMDBSource.getCircuitBreakerState:
timeUntilNextAttempt = Math.max(0, nextAttemptTime - Date.now()), which
Nat subtraction gives directly. -/
def getCircuitBreakerState (ex : SourceExtraState) (m : SourceMetrics)
    (now : Nat) : BreakerSnapshot :=
  { state := ex.breaker.circuitState,
    consecutiveFailures := m.consecutiveFailures,
    failureThreshold := ex.breaker.failureThreshold,
    nextAttemptTime := ex.breaker.nextAttemptTime,
    timeUntilNextAttempt := ex.breaker.nextAttemptTime - now,
    isTemporarilyDisabled := m.isTemporarilyDisabled,
    disableDuration := ex.breaker.disableDuration }

/-- The getMetrics override extension of a breaker-carrying source. -/
def extraStatsView (ex : SourceExtraState) (m : SourceMetrics) (now : Nat) :
    ExtraStatsView :=
  { circuitBreaker := getCircuitBreakerState ex m now,
    rateLimit := rateLimitView ex.rateLimit,
    configuration :=
      { timeout := ex.timeout, baseUrl := ex.baseUrl,
        imageBaseUrl := ex.imageBaseUrl, hasApiKey := ex.hasApiKey,
        failureThreshold := ex.breaker.failureThreshold,
        disableDuration := ex.breaker.disableDuration } }

/-- One element of the FallbackChain.getSourcesStats map: the spread of
source.getMetrics() (base metrics plus, for Kitsu/TMDB, the override
blocks) with priority, enabled and available. -/
structure SourceStatsItem where
  name : String
  metrics : SourceMetrics
  priority : Nat
  enabled : Bool
  available : Bool
  extra : Option ExtraStatsView
  deriving DecidableEq, Repr

def sourceStatsItem (s : ChainSource) (now : Nat) : SourceStatsItem :=
  { name := s.name, metrics := s.metrics, priority := s.priority,
    enabled := s.isEnabled, available := FallbackChain.availableSrc s,
    extra := s.extra.map fun ex => extraStatsView ex s.metrics now }

/-- FallbackChain.getSourcesStats: per source the spread of its
getMetrics() — including the Kitsu/TMDB circuitBreaker snapshot whose
timeUntilNextAttempt reads the wall clock — plus priority, enabled and
available flags. -/
def getSourcesStats (l : List ChainSource) (now : Nat) :
    List SourceStatsItem :=
  l.map fun s => sourceStatsItem s now

/-- View returned by PosterManager.getStats. -/
structure ManagerStatsView where
  cache : CacheService.StatsView
  sources : List SourceStatsItem
  global : MetricsCollector.StatsView
  cacheSize : Nat
  cacheTTL : Nat
  sourcesCount : Nat
  deriving DecidableEq, Repr

namespace PosterManager

/-- PosterManager.getStats: aggregates cache stats, per-source stats, the
global collector stats and the configuration snapshot. -/
def getStats (ms : ManagerState) (now : Nat) : ManagerStatsView :=
  { cache := CacheService.getStats ms.cache,
    sources := getSourcesStats ms.sources now,
    global := MetricsCollector.getStats ms.global now,
    cacheSize := ms.cache.maxSize, cacheTTL := ms.cache.defaultTTL,
    sourcesCount := ms.sourcesCount }

end PosterManager

/-- Concrete open-breaker Kitsu-like source whose stats view counts down
timeUntilNextAttempt, used by the C9 counterexample and witness. -/
def c9Source : ChainSource :=
  { name := "kitsu", priority := 1, isEnabled := true,
    metrics := { freshMetrics with
                 consecutiveFailures := 10,
                 isTemporarilyDisabled := true,
                 failedRequests := 10, totalRequests := 10 },
    attempt := .rejected "circuit-open",
    extra := some
      { breaker := { circuitState := .OPEN, failureThreshold := 10,
                     disableDuration := 1000, nextAttemptTime := 1000 },
        rateLimit := .perMinute 30 2000 0,
        timeout := 3000, baseUrl := "kitsu-api",
        imageBaseUrl := none, hasApiKey := none } }

/-- C9 counterexample: the claim asserts that two Stats reads with no
intervening mutation return identical values.  MetricsCollector.getStats
derives uptime (and requestsPerMinute) from the current wall clock, and
the per-source view spreads the Kitsu/TMDB getMetrics override whose
circuitBreaker.timeUntilNextAttempt also reads the wall clock, so two
reads of the same untouched state at different instants differ in both
views. -/
theorem C9_counterexample :
    MetricsCollector.getStats (MetricsCollector.fresh 0) 60000 ≠
      MetricsCollector.getStats (MetricsCollector.fresh 0) 120000 ∧
      getSourcesStats [c9Source] 100 ≠ getSourcesStats [c9Source] 200 := by
  decide

/-- Erase the one wall-clock-derived field of a per-source stats item:
the circuitBreaker.timeUntilNextAttempt countdown of the Kitsu/TMDB
getMetrics override. -/
def scrubTimeUntil (it : SourceStatsItem) : SourceStatsItem :=
  { it with
    extra := it.extra.map fun ex =>
      { ex with circuitBreaker :=
          { ex.circuitBreaker with timeUntilNextAttempt := 0 } } }

/-- C9 (amended): the statistics accessors are pure reads — two getStats
calls on the same unmutated state agree on every field except the
wall-clock-derived ones: the uptime and requestsPerMinute of the global
view and, for each breaker-carrying source, the
circuitBreaker.timeUntilNextAttempt countdown of its getMetrics override
(equal to nextAttemptTime minus the read instant, floored at 0); the
cache view and the configuration snapshot are time-independent, and the
whole manager view is identical when both reads happen at the same
instant. -/
theorem C9_stats_idempotent (ms : ManagerState) (m : GlobalMetrics)
    (s : ChainSource) (t1 t2 : Nat) :
    ((MetricsCollector.getStats m t1).totalRequests =
        (MetricsCollector.getStats m t2).totalRequests ∧
      (MetricsCollector.getStats m t1).successfulRequests =
        (MetricsCollector.getStats m t2).successfulRequests ∧
      (MetricsCollector.getStats m t1).failedRequests =
        (MetricsCollector.getStats m t2).failedRequests ∧
      (MetricsCollector.getStats m t1).cacheHits =
        (MetricsCollector.getStats m t2).cacheHits ∧
      (MetricsCollector.getStats m t1).cacheMisses =
        (MetricsCollector.getStats m t2).cacheMisses ∧
      (MetricsCollector.getStats m t1).averageResponseTime =
        (MetricsCollector.getStats m t2).averageResponseTime ∧
      (MetricsCollector.getStats m t1).sourceUsage =
        (MetricsCollector.getStats m t2).sourceUsage ∧
      (MetricsCollector.getStats m t1).errorTypes =
        (MetricsCollector.getStats m t2).errorTypes ∧
      (MetricsCollector.getStats m t1).successRate =
        (MetricsCollector.getStats m t2).successRate ∧
      (MetricsCollector.getStats m t1).cacheHitRate =
        (MetricsCollector.getStats m t2).cacheHitRate) ∧
      (t1 = t2 →
        PosterManager.getStats ms t1 = PosterManager.getStats ms t2) ∧
      ((PosterManager.getStats ms t1).cache =
        (PosterManager.getStats ms t2).cache ∧
      ((PosterManager.getStats ms t1).sources).map scrubTimeUntil =
        ((PosterManager.getStats ms t2).sources).map scrubTimeUntil ∧
      (sourceStatsItem s t1).extra.map
          (fun ex => ex.circuitBreaker.timeUntilNextAttempt) =
        s.extra.map (fun ex => ex.breaker.nextAttemptTime - t1) ∧
      (PosterManager.getStats ms t1).cacheSize =
        (PosterManager.getStats ms t2).cacheSize ∧
      (PosterManager.getStats ms t1).cacheTTL =
        (PosterManager.getStats ms t2).cacheTTL ∧
      (PosterManager.getStats ms t1).sourcesCount =
        (PosterManager.getStats ms t2).sourcesCount) := by
  refine ⟨⟨rfl, rfl, rfl, rfl, rfl, rfl, rfl, rfl, rfl, rfl⟩, ?_,
    rfl, ?_, ?_, rfl, rfl, rfl⟩
  · rintro rfl
    rfl
  · show (getSourcesStats ms.sources t1).map scrubTimeUntil =
      (getSourcesStats ms.sources t2).map scrubTimeUntil
    unfold getSourcesStats
    rw [List.map_map, List.map_map]
    apply List.map_congr_left
    intro src _
    cases hex : src.extra <;>
      simp [Function.comp, sourceStatsItem, scrubTimeUntil,
        extraStatsView, getCircuitBreakerState, hex]
  · cases hex : s.extra <;>
      simp [sourceStatsItem, extraStatsView, getCircuitBreakerState, hex]

/-- Concrete manager state holding the open-breaker source, used to
witness C9_stats_idempotent. -/
def c9Manager : ManagerState :=
  { cache := initialCache 10 1000, sources := [c9Source],
    global := MetricsCollector.fresh 0, sourcesCount := 1 }

/-- Witness for C9_stats_idempotent: two reads at the same instant of a
manager with an open-breaker source agree in full. -/
theorem C9_stats_idempotent_witness :
    (5 : Nat) = 5 ∧
      PosterManager.getStats c9Manager 5 =
        PosterManager.getStats c9Manager 5 :=
  ⟨rfl,
    (C9_stats_idempotent c9Manager (MetricsCollector.fresh 0) c9Source
      5 5).2.1 rfl⟩

/-- Events of the per-key request-coalescing protocol of
PosterManager.getPoster, under the JavaScript run-to-completion model:
the has-check plus set on concurrentRequests (lines 78-83) is one atomic
segment, so an arrival either starts the walk (no in-flight entry) or
subscribes to the in-flight promise; the completion of the walk resolves
every subscriber with the same result and the finally-block deletes the
in-flight entry whatever the outcome was. -/
inductive DedupEvent
  | arrive (caller : Nat)
  | complete (r : PosterResult)

/-- State of the coalescing map for one fixed key: the in-flight walk id
(concurrentRequests.get(key)), how many walks were ever started, who is
awaiting which walk, and the results the callers received. -/
structure DedupState where
  inFlight : Option Nat
  walksStarted : Nat
  subscribers : List (Nat × Nat)
  delivered : List (Nat × PosterResult)
  deriving DecidableEq, Repr

namespace PosterManager

/-- One atomic segment of getPoster. -/
def dedupStep (st : DedupState) : DedupEvent → DedupState
  | .arrive c =>
      match st.inFlight with
      | some w => { st with subscribers := st.subscribers ++ [(c, w)] }
      | none =>
          { st with
            inFlight := some st.walksStarted,
            walksStarted := st.walksStarted + 1,
            subscribers := st.subscribers ++ [(c, st.walksStarted)] }
  | .complete r =>
      match st.inFlight with
      | none => st
      | some w =>
          { st with
            inFlight := none,
            delivered := st.delivered ++
              ((st.subscribers.filter fun p => p.2 == w).map
                fun p => (p.1, r)) }

def dedupRun (st : DedupState) : List DedupEvent → DedupState
  | [] => st
  | ev :: evs => dedupRun (dedupStep st ev) evs

/-- No request in flight, nothing delivered. -/
def initialDedup : DedupState :=
  { inFlight := none, walksStarted := 0, subscribers := [], delivered := [] }

theorem dedupRun_append (st : DedupState) (l1 l2 : List DedupEvent) :
    dedupRun st (l1 ++ l2) = dedupRun (dedupRun st l1) l2 := by
  induction l1 generalizing st with
  | nil => rfl
  | cons ev evs ih => simp [dedupRun, ih]

/-- Arrivals while a walk is in flight only subscribe: they start no new
walk and leave the in-flight entry as is. -/
theorem dedupRun_arrivals (cs : List Nat) (st : DedupState) (w : Nat)
    (h : st.inFlight = some w) :
    dedupRun st (cs.map DedupEvent.arrive) =
      { st with subscribers := st.subscribers ++ cs.map fun c => (c, w) } := by
  induction cs generalizing st with
  | nil => simp [dedupRun]
  | cons c cs ih =>
      simp only [List.map_cons, dedupRun, dedupStep, h]
      rw [ih _ (by simp [h])]
      simp

end PosterManager

/-- C1: for every key, when N >= 2 callers arrive while no walk result is
yet available (the first arrival finding no in-flight entry, the rest
arriving before the walk completes), exactly one underlying chain walk is
started; on completion every caller receives the identical result r
(hence identical url, source and fromCache), every delivered result
equals r, and the in-flight entry is cleared regardless of the outcome
r. -/
theorem C1_dedup_coalesces (c0 : Nat) (cs : List Nat) (r : PosterResult)
    (hN : 2 ≤ (c0 :: cs).length) :
    (PosterManager.dedupRun PosterManager.initialDedup
        ((c0 :: cs).map DedupEvent.arrive ++
          [DedupEvent.complete r])).walksStarted = 1 ∧
      (PosterManager.dedupRun PosterManager.initialDedup
          ((c0 :: cs).map DedupEvent.arrive ++
            [DedupEvent.complete r])).inFlight = none ∧
      (∀ c ∈ c0 :: cs,
        (c, r) ∈ (PosterManager.dedupRun PosterManager.initialDedup
          ((c0 :: cs).map DedupEvent.arrive ++
            [DedupEvent.complete r])).delivered) ∧
      (∀ p ∈ (PosterManager.dedupRun PosterManager.initialDedup
          ((c0 :: cs).map DedupEvent.arrive ++
            [DedupEvent.complete r])).delivered, p.2 = r) := by
  have hfirst :
      PosterManager.dedupStep PosterManager.initialDedup
          (DedupEvent.arrive c0) =
        { inFlight := some 0, walksStarted := 1,
          subscribers := [(c0, 0)], delivered := [] } := by
    simp [PosterManager.dedupStep, PosterManager.initialDedup]
  have hrun :
      PosterManager.dedupRun PosterManager.initialDedup
          ((c0 :: cs).map DedupEvent.arrive ++ [DedupEvent.complete r]) =
        PosterManager.dedupStep
          { inFlight := some 0, walksStarted := 1,
            subscribers := (c0, 0) :: cs.map fun c => (c, 0),
            delivered := [] } (DedupEvent.complete r) := by
    rw [List.map_cons, List.cons_append]
    show PosterManager.dedupRun
        (PosterManager.dedupStep PosterManager.initialDedup
          (DedupEvent.arrive c0))
        (cs.map DedupEvent.arrive ++ [DedupEvent.complete r]) = _
    rw [hfirst, PosterManager.dedupRun_append,
      PosterManager.dedupRun_arrivals cs _ 0 rfl]
    rfl
  have hfilter :
      (((c0, 0) :: cs.map fun c => (c, 0)).filter
          fun p => p.2 == 0) =
        (c0, 0) :: cs.map fun c => (c, 0) := by
    rw [List.filter_eq_self]
    intro p hp
    rcases List.mem_cons.mp hp with rfl | hp'
    · rfl
    · rcases List.mem_map.mp hp' with ⟨c, _, rfl⟩
      rfl
  have hdeliv :
      (PosterManager.dedupRun PosterManager.initialDedup
          ((c0 :: cs).map DedupEvent.arrive ++
            [DedupEvent.complete r])).delivered =
        (c0, r) :: cs.map fun c => (c, r) := by
    rw [hrun]
    simp only [PosterManager.dedupStep, hfilter]
    simp [List.map_map, Function.comp]
  refine ⟨?_, ?_, ?_, ?_⟩
  · rw [hrun]; rfl
  · rw [hrun]; rfl
  · intro c hc
    rw [hdeliv]
    rcases List.mem_cons.mp hc with rfl | hc'
    · exact List.mem_cons_self _ _
    · exact List.mem_cons_of_mem _ (List.mem_map.mpr ⟨c, hc', rfl⟩)
  · intro p hp
    rw [hdeliv] at hp
    rcases List.mem_cons.mp hp with rfl | hp'
    · rfl
    · rcases List.mem_map.mp hp' with ⟨c, _, rfl⟩
      rfl

/-- Witness for C1_dedup_coalesces with three concurrent callers and the
walk delivering a concrete poster result. -/
theorem C1_dedup_coalesces_witness :
    2 ≤ ([7, 8, 9] : List Nat).length ∧
      (PosterManager.dedupRun PosterManager.initialDedup
          (([7, 8, 9] : List Nat).map DedupEvent.arrive ++
            [DedupEvent.complete
              { url := some "u", source := "kitsu",
                fromCache := false }])).walksStarted = 1 :=
  ⟨by decide,
    (C1_dedup_coalesces 7 [8, 9]
      { url := some "u", source := "kitsu", fromCache := false }
      (by decide)).1⟩

namespace KitsuSource

/-- KitsuSource default rate limit: 30 requests per minute. -/
def defaultRateLimit : ℚ := 30

/-- KitsuSource minRequestInterval = 60000 / rateLimit milliseconds
(JS division, not truncated). -/
def minRequestInterval (rateLimit : ℚ) : ℚ := 60000 / rateLimit

/-- KitsuSource._waitForRateLimit (NautiljonSource._ensureRateLimit is
identical): a minimum-interval limiter.  It keeps only the single
lastRequestTime; if less than minRequestInterval has elapsed it waits the
difference, then records the new instant.  Returns the cooperative delay
and the new lastRequestTime. -/
def waitForRateLimit (lastRequestTime minInterval now : ℚ) : ℚ × ℚ :=
  let elapsed := now - lastRequestTime
  if elapsed < minInterval then
    (minInterval - elapsed, now + (minInterval - elapsed))
  else (0, now)

end KitsuSource

namespace TMDBSource

/-- TMDBSource default sliding-window parameters: 40 requests per
10000 ms. -/
def maxRequestsPer10Sec : Nat := 40

def rateLimitWindow : ℚ := 10000

/-- Drop the timestamps that have left the window. -/
def prune (times : List ℚ) (window now : ℚ) : List ℚ :=
  times.filter fun t => now - t < window

/-- Math.min over the recorded timestamps. -/
def listMin : List ℚ → ℚ
  | [] => 0
  | t :: ts => ts.foldl min t

/-- TMDBSource._waitForRateLimit: a sliding-window limiter.  Prune the
timestamps older than the window; when the per-window limit is reached,
wait until the oldest timestamp exits the window plus a 100 ms margin,
re-prune at the new instant, then record the new timestamp.  Returns the
cooperative delay and the new timestamp list. -/
def waitForRateLimit (times : List ℚ) (limit : Nat) (window now : ℚ) :
    ℚ × List ℚ :=
  let pruned := prune times window now
  if limit ≤ pruned.length then
    let oldest := listMin pruned
    let waitTime := window - (now - oldest) + 100
    if 0 < waitTime then
      (waitTime, prune pruned window (now + waitTime) ++ [now + waitTime])
    else (0, pruned ++ [now])
  else (0, pruned ++ [now])

end TMDBSource

/-- Modelled from the spec: the per-provider sliding-window limiter the
claim asserts every provider uses — record timestamps of recent attempts,
prune those older than the window before a new attempt, and when the
per-window limit is reached delay until the oldest timestamp exits the
window plus a small safety margin before recording the new timestamp. -/
def specSlidingWindowWait (times : List ℚ) (limit : Nat)
    (window margin now : ℚ) : ℚ × List ℚ :=
  let pruned := TMDBSource.prune times window now
  if limit ≤ pruned.length then
    let oldest := TMDBSource.listMin pruned
    let delay := max 0 (oldest + window + margin - now)
    (delay, pruned ++ [now + delay])
  else (0, pruned ++ [now])

/-- C7 counterexample: the claim asserts every provider keeps timestamps
of recent attempts and only delays once the per-window limit is reached.
Kitsu keeps a single lastRequestTime and enforces a minimum interval of
60000/rateLimit ms between consecutive requests: with its default limit
of 30 per minute, a second request 1 ms after the first is delayed
1999 ms, whereas the claimed sliding-window limiter (1 timestamp recorded,
limit 30 not reached) would impose no delay. -/
theorem C7_counterexample :
    KitsuSource.minRequestInterval KitsuSource.defaultRateLimit = 2000 ∧
      (KitsuSource.waitForRateLimit 0 2000 1).1 = 1999 ∧
      (specSlidingWindowWait [0] 30 60000 100 1).1 = 0 ∧
      (1999 : ℚ) ≠ 0 := by
  refine ⟨?_, ?_, ?_, by norm_num⟩
  · norm_num [KitsuSource.minRequestInterval, KitsuSource.defaultRateLimit]
  · norm_num [KitsuSource.waitForRateLimit]
  · norm_num [specSlidingWindowWait, TMDBSource.prune]

/-- C7 (amended): the rate limiters are parameterized per provider and
differ in kind: TMDB uses the sliding window of the claim (its delay
coincides with the spec sliding-window limiter with a 100 ms margin, with
40 requests per 10 s by default), while Kitsu (and Nautiljon) use a
minimum-interval limiter that delays max(0, minInterval - elapsed) after
every request, with minInterval = 60000/rateLimit (2000 ms at the Kitsu
default of 30 per minute). -/
theorem C7_rate_limiters (times : List ℚ) (limit : Nat)
    (window now last minI : ℚ) :
    (TMDBSource.waitForRateLimit times limit window now).1 =
        (specSlidingWindowWait times limit window 100 now).1 ∧
      (KitsuSource.waitForRateLimit last minI now).1 =
        max 0 (minI - (now - last)) ∧
      KitsuSource.minRequestInterval KitsuSource.defaultRateLimit = 2000 ∧
      TMDBSource.maxRequestsPer10Sec = 40 ∧
      TMDBSource.rateLimitWindow = 10000 := by
  refine ⟨?_, ?_,
    by norm_num [KitsuSource.minRequestInterval,
      KitsuSource.defaultRateLimit], rfl, rfl⟩
  · unfold TMDBSource.waitForRateLimit specSlidingWindowWait
    by_cases hl : limit ≤ (TMDBSource.prune times window now).length
    · simp only [hl, if_true]
      have harith :
          window - (now - TMDBSource.listMin
              (TMDBSource.prune times window now)) + 100 =
            TMDBSource.listMin (TMDBSource.prune times window now) +
              window + 100 - now := by ring
      by_cases hw : 0 < window - (now - TMDBSource.listMin
          (TMDBSource.prune times window now)) + 100
      · simp only [hw, if_true]
        rw [harith, eq_comm]
        exact max_eq_right (le_of_lt (harith ▸ hw))
      · simp only [hw, if_false]
        rw [eq_comm]
        refine max_eq_left ?_
        rw [← harith]
        exact le_of_not_lt hw
    · simp [hl]
  · unfold KitsuSource.waitForRateLimit
    by_cases h : now - last < minI
    · simp only [h, if_true]
      rw [eq_comm]
      exact max_eq_right (by linarith)
    · simp only [h, if_false]
      rw [eq_comm]
      exact max_eq_left (by linarith)

/-- Snapshot serialized by the cache persistence routines: the live entry
set plus the cumulative sets/evictions counters (and the size figure),
under a version and timestamp header. -/
structure SerializedCache where
  version : String
  timestamp : Nat
  entries : List (String × CacheEntry)
  sets : Nat
  evictions : Nat
  size : Nat
  deriving DecidableEq, Repr

/-- Filesystem effects a save routine performs, in order. -/
inductive FsOp
  | write (path : String) (payload : SerializedCache)
  | rename (src dst : String)
  deriving DecidableEq, Repr

namespace CacheService

/-- The cacheData object built by both save routines. -/
def serializeCache (c : CacheState) (now : Nat) : SerializedCache :=
  { version := "1.0", timestamp := now, entries := c.entries,
    sets := c.stats.sets, evictions := c.stats.evictions,
    size := c.stats.size }

/-- The debounced CacheService._saveToDisk body: write the serialized
cache to filePath.tmp, then rename it over the target. -/
def saveToDiskOps (c : CacheState) (filePath : String) (now : Nat) :
    List FsOp :=
  [FsOp.write (filePath ++ ".tmp") (serializeCache c now),
   FsOp.rename (filePath ++ ".tmp") filePath]

/-- The final save of CacheService.shutdown: fs.writeFile directly to the
target path — no temporary file and no rename. -/
def shutdownSaveOps (c : CacheState) (filePath : String) (now : Nat) :
    List FsOp :=
  [FsOp.write filePath (serializeCache c now)]

/-- A write plan reaches the target atomically when it never writes the
target path directly and produces it by renaming another file over it. -/
def isAtomicWrite (ops : List FsOp) (target : String) : Bool :=
  (ops.all fun op =>
    match op with
    | FsOp.write p _ => p != target
    | FsOp.rename _ _ => true) &&
  (ops.any fun op =>
    match op with
    | FsOp.rename _ d => d == target
    | FsOp.write _ _ => false)

end CacheService

/-- C8 counterexample: the claim asserts every persistence write — the
debounced periodic save AND the final save on shutdown — goes through a
temporary path plus rename.  The shutdown save writes the file directly
at the target path, so it is not atomic in the claimed sense. -/
theorem C8_counterexample :
    CacheService.isAtomicWrite
        (CacheService.shutdownSaveOps (initialCache 10 1000) "cache.json" 5)
        "cache.json" = false ∧
      CacheService.shutdownSaveOps (initialCache 10 1000) "cache.json" 5 =
        [FsOp.write "cache.json"
          (CacheService.serializeCache (initialCache 10 1000) 5)] := by
  decide

/-- C8 (amended): both persistence writes serialize the live entry set
together with the cumulative sets/evictions counters; the debounced
periodic save is atomic (write to filePath.tmp then rename over the
target), but the final save on shutdown writes directly to the target
path without a temporary file or rename. -/
theorem C8_persistence_writes (c : CacheState) (filePath : String)
    (now : Nat) :
    CacheService.isAtomicWrite
        (CacheService.saveToDiskOps c filePath now) filePath = true ∧
      (CacheService.serializeCache c now).entries = c.entries ∧
      (CacheService.serializeCache c now).sets = c.stats.sets ∧
      (CacheService.serializeCache c now).evictions = c.stats.evictions ∧
      CacheService.shutdownSaveOps c filePath now =
        [FsOp.write filePath (CacheService.serializeCache c now)] := by
  refine ⟨?_, rfl, rfl, rfl, rfl⟩
  have hne : filePath ++ ".tmp" ≠ filePath := by
    intro h
    have hlen := congrArg String.length h
    rw [String.length_append] at hlen
    have h4 : (".tmp" : String).length = 4 := rfl
    rw [h4] at hlen
    omega
  simp [CacheService.isAtomicWrite, CacheService.saveToDiskOps, hne]

end FrAnime
